import Mathlib

/-!
Verification of the GE dump replay subsystem (`GPU/Debugger/Playback.cpp`)
of the PPSSPP emulator.

The development shallowly embeds the C++ source: pure arithmetic is carried
out on `Nat` with explicit `% 2^32` where 32-bit wraparound matters; calls
into external collaborators (the emulated-memory allocator, the graphics
engine, the filesystem, config flags) are modelled as oracles carried in the
state or in an environment record, and their visible effects are recorded in
an explicit event trace.  Structures and functions keep the names of the
source where Lean allows it.
-/

namespace Playback

/-- 2^32, the modulus of the C++ `u32` type. -/
def U32LIM : Nat := 4294967296

/-- u32 subtraction `a - b` with wraparound, as C++ computes it on `u32`. -/
def u32sub (a b : Nat) : Nat := (a + U32LIM - b % U32LIM) % U32LIM

/-- Operation types relayed through the rendezvous mailbox
(`enum class OpType`, Playback.cpp:57-64). -/
inductive OpType where
  | None
  | UpdateStallAddr
  | EnqueueList
  | ListSync
  | ReapplyGfxState
  | Done
deriving DecidableEq, Repr

/-- The single in-flight request object (`struct Operation`, Playback.cpp:78-82). -/
structure Operation where
  type : OpType
  listID : Nat := 0
  param : Nat := 0
deriving DecidableEq, Repr

/-- Result of the replay entry points.  Modelled from the spec: the enum
`ReplayResult {Done, Break, Error}` lives in Playback.h, which is not part of
the sources; the spec (section 6) lists exactly these three values. -/
inductive ReplayResult where
  | Done
  | Break
  | Error
deriving DecidableEq, Repr

/-- Events: the externally visible effects of replay (guest-memory writes,
allocator calls, operations posted through the mailbox, engine calls).  The
embedding logs them in order instead of mutating a memory model. -/
inductive Ev where
  /-- `ExecuteOnMain` was called with an operation `{type, listID, param}`. -/
  | opPosted (type : OpType) (listID param : Nat)
  /-- `Memory::Write_U32 value addr`. -/
  | writeU32 (addr value : Nat)
  /-- a sequence of u32 words written to guest memory starting at `addr`. -/
  | listWrite (addr : Nat) (words : List Nat)
  /-- `Memory::MemcpyUnchecked(dst, pushbuf + srcOff, len)`. -/
  | pushCopy (dst srcOff len : Nat)
  /-- `NotifyMemInfo(WRITE, addr, len, ...)`. -/
  | notifyMem (addr len : Nat)
  /-- `userMemory.Alloc(size)` returned `ret` (0 encodes failure). -/
  | alloc (size ret : Nat)
  /-- `userMemory.Free(addr)`. -/
  | freeMem (addr : Nat)
  /-- `gpu->PerformMemorySet(addr, value, len)`. -/
  | memsetEv (addr value len : Nat)
  /-- `gpu->PerformWriteColorFromMemory(addr, len)`. -/
  | writeColor (addr len : Nat)
  /-- `gpu->SetAddrTranslation(value)`. -/
  | setAddrTranslation (value : Nat)
  /-- `__DisplaySetFramebuf(topaddr, linesize, pixelFormat, mode)`. -/
  | setFramebuf (topaddr linesize pixelFormat mode : Nat)
  /-- `gpu->EnableInterrupts(b)`. -/
  | enableInterrupts (b : Bool)
  /-- `gstate.Restore` from pushbuffer offset `ptr`. -/
  | gstateRestore (ptr : Nat)
  /-- an `ERROR_LOG` line. -/
  | errorLog (msg : String)
deriving DecidableEq, Repr

/-! ## Buffer Mapper (`class BufMapping`, Playback.cpp:129-352) -/

/-- `SLAB_SIZE = 1 * 1024 * 1024` (Playback.cpp:155). -/
def SLAB_SIZE : Nat := 1048576

/-- `SLAB_COUNT = 10` (Playback.cpp:158). -/
def SLAB_COUNT : Nat := 10

/-- `EXTRA_COUNT = 10` (Playback.cpp:159). -/
def EXTRA_COUNT : Nat := 10

/-- `std::numeric_limits<int>::max()`, the age of an unallocated slab. -/
def INT_MAX : Int := 2147483647

/-- `struct SlabInfo` (Playback.cpp:167-193). -/
structure SlabInfo where
  psp_pointer : Nat := 0
  buf_pointer : Nat := 0
  last_used : Nat := 0
deriving DecidableEq, Repr

instance : Inhabited SlabInfo := ⟨{}⟩

/-- `SlabInfo::Matches` (Playback.cpp:172-175). -/
def SlabInfo.Matches (s : SlabInfo) (bufpos : Nat) : Bool :=
  s.buf_pointer == bufpos && s.psp_pointer != 0

/-- `SlabInfo::Age` (Playback.cpp:183-188): unallocated slabs are as expired
as they are going to get. -/
def SlabInfo.Age (s : SlabInfo) (gen : Nat) : Int :=
  if s.psp_pointer = 0 then INT_MAX else (gen : Int) - (s.last_used : Int)

/-- `struct ExtraInfo` (Playback.cpp:197-213). -/
structure ExtraInfo where
  psp_pointer : Nat := 0
  buf_pointer : Nat := 0
  size : Nat := 0
deriving DecidableEq, Repr

instance : Inhabited ExtraInfo := ⟨{}⟩

/-- `ExtraInfo::Matches` (Playback.cpp:202-205). -/
def ExtraInfo.Matches (e : ExtraInfo) (bufpos sz : Nat) : Bool :=
  e.buf_pointer == bufpos && e.psp_pointer != 0 && decide (sz ≤ e.size)

/-- The state of `BufMapping`: the slab array, the most-recent-slab index,
the round-robin cursor for extras, the extra array, the LRU generation
counter `slabGeneration_`, and an oracle stream of `userMemory.Alloc`
results (an entry of `0` models an allocation failure; the C++ code collapses
the failure value `-1` to `0` before use). -/
structure BufMappingState where
  slabs : List SlabInfo
  lastSlab : Nat := 0
  extraOffset : Nat := 0
  extras : List ExtraInfo
  gen : Nat := 0
  allocs : List Nat
deriving DecidableEq, Repr

/-- Initial mapper state: zero-initialized arrays (Playback.cpp:215-218). -/
def initMapping (allocs : List Nat) : BufMappingState :=
  { slabs := List.replicate SLAB_COUNT {}
    extras := List.replicate EXTRA_COUNT {}
    allocs := allocs }

/-- The scan loop of `BufMapping::MapSlab` (Playback.cpp:242-251): returns
`Sum.inl i` when slab `i` matches `slab_pos`, otherwise `Sum.inr best` where
`best` tracks the largest-age slab seen so far. -/
def slabScan (slabs : List SlabInfo) (gen slab_pos : Nat) :
    List Nat → Nat → Sum Nat Nat
  | [], best => Sum.inr best
  | i :: rest, best =>
    if (slabs.getD i default).Matches slab_pos then Sum.inl i
    else
      slabScan slabs gen slab_pos rest
        (if (slabs.getD i default).Age gen > (slabs.getD best default).Age gen then i else best)

/-- The allocation step of `SlabInfo::Setup` (Playback.cpp:290-297 and
336-341): a slab that already has RAM is simply taken over; otherwise the
next allocator response is consumed (0 = failure).  Returns the address, the
remaining allocator oracle and the events. -/
def slabSetupAlloc (sb : SlabInfo) (allocs : List Nat) : Nat × List Nat × List Ev :=
  if sb.psp_pointer = 0 then
    match allocs with
    | [] => (0, ([] : List Nat), [Ev.alloc SLAB_SIZE 0])
    | a :: rest => (a, rest, [Ev.alloc SLAB_SIZE a])
  else (sb.psp_pointer, allocs, [])

/-- `BufMapping::MapSlab` (Playback.cpp:239-262), including
`SlabInfo::Setup`/`Alloc` (Playback.cpp:290-350) inlined.  `pushlen` is
`pushbuf_.size()`; `flushEvs` the trace of the flush callback.  Returns the
mapped emulated address (0 = failure), the new state and the events. -/
def mapSlab (m : BufMappingState) (pushlen bufpos : Nat) (flushEvs : List Ev) :
    Nat × BufMappingState × List Ev :=
  let slab_pos := bufpos / SLAB_SIZE * SLAB_SIZE
  match slabScan m.slabs m.gen slab_pos (List.range SLAB_COUNT) 0 with
  | Sum.inl i =>
    -- hit: Ptr() marks the slab used for LRU purposes (Playback.cpp:178-181)
    let si := m.slabs.getD i default
    (si.psp_pointer + (bufpos - si.buf_pointer),
     { m with slabs := m.slabs.set i { si with last_used := m.gen } }, [])
  | Sum.inr best =>
    -- miss: stall (flush) before mapping a new slab, then Setup the best slab
    let sb := m.slabs.getD best default
    let t := slabSetupAlloc sb m.allocs
    let addr := t.1
    let allocs' := t.2.1
    let allocEvs := t.2.2
    if addr = 0 then
      (0, { m with allocs := allocs' }, flushEvs ++ allocEvs)
    else
      let cpLen := min SLAB_SIZE (u32sub pushlen slab_pos)
      let gen' := m.gen + 1
      let sb' : SlabInfo := { psp_pointer := addr, buf_pointer := slab_pos, last_used := gen' }
      (addr + (bufpos - slab_pos),
       { m with slabs := m.slabs.set best sb', gen := gen', lastSlab := best, allocs := allocs' },
       flushEvs ++ allocEvs ++ [Ev.pushCopy addr slab_pos cpLen])

/-- The scan loop of `BufMapping::MapExtra` (Playback.cpp:265-270): index of
the first extra entry matching `(bufpos, sz)`. -/
def extraScan (extras : List ExtraInfo) (bufpos sz : Nat) : List Nat → Option Nat
  | [] => none
  | i :: rest =>
    if (extras.getD i default).Matches bufpos sz then some i
    else extraScan extras bufpos sz rest

/-- `ExtraInfo::Alloc` (Playback.cpp:308-325): free any previous allocation,
then allocate and copy.  Returns success, the updated entry, the remaining
allocator oracle and the events. -/
def extraAllocOne (e : ExtraInfo) (bufpos sz : Nat) (allocs : List Nat) :
    Bool × ExtraInfo × List Nat × List Ev :=
  let freeEvs := if e.psp_pointer ≠ 0 then [Ev.freeMem e.psp_pointer] else []
  let e0 : ExtraInfo :=
    if e.psp_pointer ≠ 0 then { e with psp_pointer := 0, buf_pointer := 0 } else e
  match allocs with
  | [] => (false, e0, ([] : List Nat), freeEvs ++ [Ev.alloc sz 0])
  | a :: rest =>
    if a = 0 then (false, e0, rest, freeEvs ++ [Ev.alloc sz 0])
    else
      (true, { psp_pointer := a, buf_pointer := bufpos, size := sz }, rest,
       freeEvs ++ [Ev.alloc sz a, Ev.pushCopy a bufpos sz])

/-- `ExtraInfo::Free` (Playback.cpp:327-333).  Note the source does not reset
`size_`. -/
def extraFree (e : ExtraInfo) : ExtraInfo × List Ev :=
  if e.psp_pointer ≠ 0 then
    ({ e with psp_pointer := 0, buf_pointer := 0 }, [Ev.freeMem e.psp_pointer])
  else (e, [])

/-- Free every extra entry (the recovery loop at Playback.cpp:280-282). -/
def freeAllExtras : List ExtraInfo → List ExtraInfo × List Ev
  | [] => ([], [])
  | e :: rest =>
    ((extraFree e).1 :: (freeAllExtras rest).1, (extraFree e).2 ++ (freeAllExtras rest).2)

/-- `BufMapping::MapExtra` (Playback.cpp:264-288). -/
def mapExtra (m : BufMappingState) (bufpos sz : Nat) (flushEvs : List Ev) :
    Nat × BufMappingState × List Ev :=
  match extraScan m.extras bufpos sz (List.range EXTRA_COUNT) with
  | some i => ((m.extras.getD i default).psp_pointer, m, [])
  | none =>
    -- stall first, so we don't stomp existing RAM; then round-robin pick
    let i := m.extraOffset
    let m1 := { m with extraOffset := (m.extraOffset + 1) % EXTRA_COUNT }
    let t1 := extraAllocOne (m1.extras.getD i default) bufpos sz m1.allocs
    if t1.1 then
      (t1.2.1.psp_pointer,
       { m1 with extras := m1.extras.set i t1.2.1, allocs := t1.2.2.1 },
       flushEvs ++ t1.2.2.2)
    else
      -- allocation failed: free all extras once and retry the same slot
      let fa := freeAllExtras (m1.extras.set i t1.2.1)
      let t2 := extraAllocOne (fa.1.getD i default) bufpos sz t1.2.2.1
      if t2.1 then
        (t2.2.1.psp_pointer,
         { m1 with extras := fa.1.set i t2.2.1, allocs := t2.2.2.1 },
         flushEvs ++ t1.2.2.2 ++ fa.2 ++ t2.2.2.2)
      else
        (0, { m1 with extras := fa.1.set i t2.2.1, allocs := t2.2.2.1 },
         flushEvs ++ t1.2.2.2 ++ fa.2 ++ t2.2.2.2)

/-- `BufMapping::Map` (Playback.cpp:223-237).  `slab2` is computed with u32
wraparound exactly as `(bufpos + sz - 1) / SLAB_SIZE` is on `u32`. -/
def bufMap (m : BufMappingState) (pushlen bufpos sz : Nat) (flushEvs : List Ev) :
    Nat × BufMappingState × List Ev :=
  let slab1 := bufpos / SLAB_SIZE
  let slab2 := u32sub (bufpos + sz) 1 / SLAB_SIZE
  if slab1 = slab2 then
    -- shortcut in case it's simply the most recent slab
    let sl := m.slabs.getD m.lastSlab default
    if sl.Matches (slab1 * SLAB_SIZE) then
      (sl.psp_pointer + (bufpos - sl.buf_pointer),
       { m with slabs := m.slabs.set m.lastSlab { sl with last_used := m.gen } }, [])
    else mapSlab m pushlen bufpos flushEvs
  else mapExtra m bufpos sz flushEvs

/-- A sequence of `Map` calls, threading the mapper state (the flush callback
contributes no events here, as in a replay with no active display list). -/
def runMaps (pushlen : Nat) : BufMappingState → List (Nat × Nat) → BufMappingState
  | m, [] => m
  | m, (p, z) :: rest => runMaps pushlen (bufMap m pushlen p z []).2.1 rest

/-! ## GE command opcodes

Modelled from the spec: `GPU/ge_constants.h` is not among the sources.  The
claims depend only on these being fixed, distinct opcode bytes; the values
used are the PSP graphics engine's public opcode numbers. -/

def GE_CMD_NOP : Nat := 0x00
def GE_CMD_VADDR : Nat := 0x01
def GE_CMD_IADDR : Nat := 0x02
def GE_CMD_JUMP : Nat := 0x08
def GE_CMD_END : Nat := 0x0C
def GE_CMD_SIGNAL : Nat := 0x0E
def GE_CMD_FINISH : Nat := 0x0F
def GE_CMD_BASE : Nat := 0x10
def GE_CMD_TEXADDR0 : Nat := 0xA0
def GE_CMD_TEXADDR7 : Nat := 0xA7
def GE_CMD_TEXBUFWIDTH0 : Nat := 0xA8
def GE_CMD_TEXBUFWIDTH7 : Nat := 0xAF
def GE_CMD_CLUTADDR : Nat := 0xB0
def GE_CMD_CLUTADDRUPPER : Nat := 0xB1
def GE_CMD_TRANSFERSRC : Nat := 0xEB

/-! ## Recorded command format

Modelled from the spec: `GPU/Debugger/RecordFormat.h` is not among the
sources.  Per spec section 6, a command record is a fixed-size
`{type: u32 enum, ptr: u32, sz: u32}` with the enum values listed there;
any other type value is unsupported and is represented here by the
`UNSUPPORTED` constructor, which the run loop's `default:` branch catches. -/

inductive CommandType where
  | INIT
  | REGISTERS
  | VERTICES
  | INDICES
  | CLUTADDR
  | CLUT
  | TRANSFERSRC
  | MEMSET
  | MEMCPYDEST
  | MEMCPYDATA
  | EDRAMTRANS
  | TEXTURE (level : Fin 8)
  | FRAMEBUF (level : Fin 8)
  | DISPLAY
  | UNSUPPORTED (value : Nat)
deriving DecidableEq, Repr

/-- A recorded command (spec section 3: `{type, ptr, sz}`; `ptr` is an offset
into the pushbuffer, `sz` a byte length). -/
structure Command where
  type : CommandType
  ptr : Nat := 0
  sz : Nat := 0
deriving DecidableEq, Repr

/-- `true` for every command the run loop's switch has a case for; the
`default:` branch (Playback.cpp:815-817) handles the rest. -/
def Command.supported (cmd : Command) : Bool :=
  match cmd.type with
  | CommandType.UNSUPPORTED _ => false
  | _ => true

/-- Little-endian u32 read from a byte blob.  Out-of-range bytes read as 0;
the C++ code would read out of bounds there (the dump format promises
`ptr + sz` lies inside the pushbuffer). -/
def readU32 (buf : List Nat) (p : Nat) : Nat :=
  buf.getD p 0 + 256 * buf.getD (p + 1) 0 + 65536 * buf.getD (p + 2) 0 +
    16777216 * buf.getD (p + 3) 0

/-- Read `n` consecutive little-endian u32 words from the head of a byte
list (used via `readWords` below). -/
def readWordsAux : List Nat → Nat → List Nat
  | _, 0 => []
  | l, n + 1 => readU32 l 0 :: readWordsAux (l.drop 4) n

/-- Read `n` consecutive little-endian u32 words starting at offset `p`. -/
def readWords (buf : List Nat) (p n : Nat) : List Nat :=
  readWordsAux (buf.drop p) n

/-! ## Replay Executor (`class DumpExecute`, Playback.cpp:354-823) -/

/-- `LIST_BUF_SIZE = 256 * 1024` (Playback.cpp:388). -/
def LIST_BUF_SIZE : Nat := 262144

/-- External collaborators read by the executor, modelled as oracles:
guest-memory range checks, the software-rendering config flag, presence of
the `gpu` object, the engine register `gstate.transfersrcw`, and the list ID
returned by `gpu->EnqueueList` through the rendezvous.  `cancelled` is the
global `g_cancelled` flag, which only `Replay_Unload` (another thread) ever
sets; within one run of the executor it is a fixed ambient value. -/
structure Env where
  isValidRange : Nat → Nat → Bool
  isVRAMAddress : Nat → Bool
  softwareRendering : Bool := false
  gpuPresent : Bool := true
  transfersrcw : Nat := 0
  enqueueRet : Nat := 0
  cancelled : Bool := false

/-- The per-run context of `DumpExecute`: the environment, the immutable
pushbuffer bytes and the dump format version. -/
structure ExecCtx where
  env : Env
  pushbuf : List Nat
  version : Nat

/-- The mutable fields of `DumpExecute` (Playback.cpp:382-392), plus the
mapper state and an oracle stream for the list-buffer allocation. -/
structure ExecState where
  execMemcpyDest : Nat := 0
  execClutAddr : Nat := 0
  execClutFlags : Nat := 0
  execListBuf : Nat := 0
  execListPos : Nat := 0
  execListID : Nat := 0
  execListQueue : List Nat := []
  lastBufw : List Nat := List.replicate 8 0
  lastTex : List Nat := List.replicate 8 0
  lastBase : Nat := 0
  mapping : BufMappingState
  listAllocs : List Nat := []

/-- `DumpExecute::SyncStall` (Playback.cpp:402-422): with no active display
list it does nothing; otherwise it posts an `UpdateStallAddr` operation for
the current write position.  The downcount adjustment only touches the CPU
timing collaborator and is not modelled. -/
def syncStallEvents (s : ExecState) : List Ev :=
  if s.execListBuf = 0 then []
  else [Ev.opPosted OpType.UpdateStallAddr s.execListID s.execListPos]

/-- First half of `DumpExecute::Registers` (Playback.cpp:425-444): lazily
allocate the 256 KB list buffer, write the initial NOP, and enqueue it as a
live display list.  Returns `false` when the allocation failed (the handler
then returns without appending). -/
def registersEnsureList (c : ExecCtx) (s : ExecState) : Bool × ExecState × List Ev :=
  if s.execListBuf ≠ 0 then (true, s, [])
  else
    match s.listAllocs with
    | [] =>
      (false, s, [Ev.alloc LIST_BUF_SIZE 0, Ev.errorLog "Unable to allocate for display list"])
    | a :: rest =>
      if a = 0 then
        (false, { s with listAllocs := rest },
         [Ev.alloc LIST_BUF_SIZE 0, Ev.errorLog "Unable to allocate for display list"])
      else
        (true,
         { s with listAllocs := rest, execListBuf := a, execListPos := a + 4,
                  execListID := c.env.enqueueRet },
         [Ev.alloc LIST_BUF_SIZE a, Ev.writeU32 a (GE_CMD_NOP <<< 24),
          Ev.enableInterrupts false, Ev.opPosted OpType.EnqueueList a (a + 4),
          Ev.enableInterrupts true])

/-- One step of the post-processing loop over freshly written register words
(Playback.cpp:476-498).  `lastTexHigh` is the per-unit rewrite table computed
before the loop; the running state is `(lastBufw, lastBase)`. -/
def processWord (lastTexHigh : List Nat) (w : Nat) (bufw : List Nat) (base : Nat) :
    Nat × List Nat × Nat :=
  let cmd := w >>> 24
  let (w1, bufw1) :=
    if GE_CMD_TEXBUFWIDTH0 ≤ cmd ∧ cmd ≤ GE_CMD_TEXBUFWIDTH7 then
      let level := cmd - GE_CMD_TEXBUFWIDTH0
      let bw := w &&& 0xFFFF
      (if bw = bufw.getD level 0 then GE_CMD_NOP <<< 24 else lastTexHigh.getD level 0 ||| bw,
       bufw.set level bw)
    else (w, bufw)
  let w2 := if GE_CMD_TEXADDR0 ≤ cmd ∧ cmd ≤ GE_CMD_TEXADDR7 then GE_CMD_NOP <<< 24 else w1
  let base' := if cmd = GE_CMD_SIGNAL ∨ cmd = GE_CMD_BASE then 0xFFFFFFFF else base
  (w2, bufw1, base')

/-- The post-processing loop folded over all payload words. -/
def processOpsGo (lastTexHigh : List Nat) : List Nat → List Nat → Nat →
    List Nat × List Nat × Nat
  | [], bufw, base => ([], bufw, base)
  | w :: ws, bufw, base =>
    let pw := processWord lastTexHigh w bufw base
    let rest := processOpsGo lastTexHigh ws pw.2.1 pw.2.2
    (pw.1 :: rest.1, rest.2.1, rest.2.2)

/-- Post-processing of the register payload (Playback.cpp:470-498): rewrites
texture-buffer-width words against the per-unit caches, NOPs out texture
addresses, and invalidates `lastBase_` on SIGNAL/BASE words. -/
def processOps (lastTex : List Nat) (words bufw : List Nat) (base : Nat) :
    List Nat × List Nat × Nat :=
  let lastTexHigh := (List.range 8).map fun i =>
    ((lastTex.getD i 0 &&& 0xFF000000) >>> 8) ||| ((GE_CMD_TEXBUFWIDTH0 + i) <<< 24)
  processOpsGo lastTexHigh words bufw base

/-- Second half of `DumpExecute::Registers` (Playback.cpp:446-501): wrap with
a base+jump pair if the pending words plus payload plus 8 bytes would reach
the end of the list buffer, then append the pending queue and the processed
payload words. -/
def registersAppend (c : ExecCtx) (s : ExecState) (ptr sz : Nat) : ExecState × List Ev :=
  let pendingSize := 4 * s.execListQueue.length
  let allocSize := pendingSize + sz + 8
  let w : ExecState × List Ev :=
    if s.execListPos + allocSize ≥ s.execListBuf + LIST_BUF_SIZE then
      let evs := [Ev.writeU32 s.execListPos
                    ((GE_CMD_BASE <<< 24) ||| ((s.execListBuf >>> 8) &&& 0xFF0000)),
                  Ev.writeU32 (s.execListPos + 4)
                    ((GE_CMD_JUMP <<< 24) ||| (s.execListBuf &&& 0xFFFFFF))]
      let s' := { s with execListPos := s.execListBuf,
                         lastBase := s.execListBuf &&& 0xFF000000 }
      (s', evs ++ syncStallEvents s')
    else (s, [])
  let s1 := w.1
  let raw := readWords c.pushbuf ptr (sz / 4)
  let po := processOps s1.lastTex raw s1.lastBufw s1.lastBase
  let writePos := s1.execListPos + pendingSize
  ({ s1 with execListQueue := [], execListPos := writePos + sz,
             lastBufw := po.2.1, lastBase := po.2.2 },
   w.2 ++ [Ev.listWrite s1.execListPos s1.execListQueue, Ev.listWrite writePos po.1])

/-- `DumpExecute::Registers` (Playback.cpp:424-501). -/
def registersStep (c : ExecCtx) (s : ExecState) (ptr sz : Nat) : ExecState × List Ev :=
  let t := registersEnsureList c s
  if t.1 then
    ((registersAppend c t.2.1 ptr sz).1, t.2.2 ++ (registersAppend c t.2.1 ptr sz).2)
  else (t.2.1, t.2.2)

/-- `DumpExecute::SubmitListEnd` (Playback.cpp:503-519): append the
finish/end pair (room is always reserved), clear the per-unit caches, stall
and request a list sync.  With no list, or when cancelled, does nothing. -/
def submitListEnd (c : ExecCtx) (s : ExecState) : ExecState × List Ev :=
  if s.execListPos = 0 ∨ c.env.cancelled then (s, [])
  else
    let evs := [Ev.writeU32 s.execListPos (GE_CMD_FINISH <<< 24),
                Ev.writeU32 (s.execListPos + 4) (GE_CMD_END <<< 24)]
    let s' := { s with execListPos := s.execListPos + 8,
                       lastTex := List.replicate 8 0, lastBase := 0xFFFFFFFF }
    (s', evs ++ syncStallEvents s' ++ [Ev.opPosted OpType.ListSync s'.execListID 0])

/-- `DumpExecute::Init` (Playback.cpp:521-530). -/
def initStep (s : ExecState) (ptr : Nat) : ExecState × List Ev :=
  ({ s with lastBufw := List.replicate 8 0, lastTex := List.replicate 8 0,
            lastBase := 0xFFFFFFFF },
   [Ev.gstateRestore ptr, Ev.opPosted OpType.ReapplyGfxState 0 0])

/-- `DumpExecute::Vertices` (Playback.cpp:532-544). -/
def verticesStep (c : ExecCtx) (s : ExecState) (ptr sz : Nat) : ExecState × List Ev :=
  let r := bufMap s.mapping c.pushbuf.length ptr sz (syncStallEvents s)
  let psp := r.1
  let mev := r.2.2
  let s1 := { s with mapping := r.2.1 }
  if psp = 0 then (s1, mev ++ [Ev.errorLog "Unable to allocate for vertices"])
  else
    let s2 :=
      if s1.lastBase ≠ psp &&& 0xFF000000 then
        { s1 with
            execListQueue := s1.execListQueue ++
              [(GE_CMD_BASE <<< 24) ||| ((psp >>> 8) &&& 0xFF0000)],
            lastBase := psp &&& 0xFF000000 }
      else s1
    ({ s2 with execListQueue := s2.execListQueue ++
        [(GE_CMD_VADDR <<< 24) ||| (psp &&& 0xFFFFFF)] }, mev)

/-- `DumpExecute::Indices` (Playback.cpp:546-558). -/
def indicesStep (c : ExecCtx) (s : ExecState) (ptr sz : Nat) : ExecState × List Ev :=
  let r := bufMap s.mapping c.pushbuf.length ptr sz (syncStallEvents s)
  let psp := r.1
  let mev := r.2.2
  let s1 := { s with mapping := r.2.1 }
  if psp = 0 then (s1, mev ++ [Ev.errorLog "Unable to allocate for indices"])
  else
    let s2 :=
      if s1.lastBase ≠ psp &&& 0xFF000000 then
        { s1 with
            execListQueue := s1.execListQueue ++
              [(GE_CMD_BASE <<< 24) ||| ((psp >>> 8) &&& 0xFF0000)],
            lastBase := psp &&& 0xFF000000 }
      else s1
    ({ s2 with execListQueue := s2.execListQueue ++
        [(GE_CMD_IADDR <<< 24) ||| (psp &&& 0xFFFFFF)] }, mev)

/-- `DumpExecute::ClutAddr` (Playback.cpp:560-568): records the pending CLUT
target address and flags, emitting nothing. -/
def clutAddrStep (c : ExecCtx) (s : ExecState) (ptr : Nat) : ExecState × List Ev :=
  ({ s with execClutAddr := readU32 c.pushbuf ptr,
            execClutFlags := readU32 c.pushbuf (ptr + 4) }, [])

/-- `DumpExecute::Clut` (Playback.cpp:570-593). -/
def clutStep (c : ExecCtx) (s : ExecState) (ptr sz : Nat) : ExecState × List Ev :=
  if s.execClutAddr ≠ 0 then
    let isTarget := s.execClutFlags &&& 1 ≠ 0
    let evs :=
      if c.env.isValidRange s.execClutAddr sz ∧ (¬isTarget ∨ ¬c.env.softwareRendering) then
        [Ev.pushCopy s.execClutAddr ptr sz, Ev.notifyMem s.execClutAddr sz]
      else []
    ({ s with execClutAddr := 0 }, evs)
  else
    let (psp, m', mev) := bufMap s.mapping c.pushbuf.length ptr sz (syncStallEvents s)
    let s1 := { s with mapping := m' }
    if psp = 0 then (s1, mev ++ [Ev.errorLog "Unable to allocate for clut"])
    else
      ({ s1 with execListQueue := s1.execListQueue ++
          [(GE_CMD_CLUTADDRUPPER <<< 24) ||| ((psp >>> 8) &&& 0xFF0000),
           (GE_CMD_CLUTADDR <<< 24) ||| (psp &&& 0xFFFFFF)] }, mev)

/-- `DumpExecute::TransferSrc` (Playback.cpp:595-607).  Note: unlike
Vertices/Indices there is no `lastBase_` check; the mapped window's high
address byte rides inside the `transfersrcw` width word. -/
def transferSrcStep (c : ExecCtx) (s : ExecState) (ptr sz : Nat) : ExecState × List Ev :=
  let r := bufMap s.mapping c.pushbuf.length ptr sz (syncStallEvents s)
  let psp := r.1
  let mev := r.2.2
  let s1 := { s with mapping := r.2.1 }
  if psp = 0 then (s1, mev ++ [Ev.errorLog "Unable to allocate for transfer"])
  else
    ({ s1 with execListQueue := s1.execListQueue ++
        [(c.env.transfersrcw &&& 0xFF00FFFF) ||| ((psp >>> 8) &&& 0xFF0000),
         (GE_CMD_TRANSFERSRC <<< 24) ||| (psp &&& 0xFFFFFF)] },
     mev ++ syncStallEvents s1)

/-- `DumpExecute::Memset` (Playback.cpp:609-624). -/
def memsetStep (c : ExecCtx) (s : ExecState) (ptr : Nat) : ExecState × List Ev :=
  let dest := readU32 c.pushbuf ptr
  let value := readU32 c.pushbuf (ptr + 4)
  let msz := readU32 c.pushbuf (ptr + 8)
  if c.env.isVRAMAddress dest then
    (s, syncStallEvents s ++ [Ev.memsetEv dest (value &&& 0xFF) msz])
  else (s, [])

/-- `DumpExecute::MemcpyDest` (Playback.cpp:626-628). -/
def memcpyDestStep (c : ExecCtx) (s : ExecState) (ptr : Nat) : ExecState × List Ev :=
  ({ s with execMemcpyDest := readU32 c.pushbuf ptr }, [])

/-- `DumpExecute::Memcpy` (Playback.cpp:630-638). -/
def memcpyStep (c : ExecCtx) (s : ExecState) (ptr sz : Nat) : ExecState × List Ev :=
  if c.env.isVRAMAddress s.execMemcpyDest then
    (s, syncStallEvents s ++
      [Ev.pushCopy s.execMemcpyDest ptr sz, Ev.notifyMem s.execMemcpyDest sz,
       Ev.writeColor s.execMemcpyDest sz])
  else (s, [])

/-- `DumpExecute::Texture` (Playback.cpp:640-654). -/
def textureStep (c : ExecCtx) (s : ExecState) (level ptr sz : Nat) : ExecState × List Ev :=
  let r := bufMap s.mapping c.pushbuf.length ptr sz (syncStallEvents s)
  let psp := r.1
  let mev := r.2.2
  let s1 := { s with mapping := r.2.1 }
  if psp = 0 then (s1, mev ++ [Ev.errorLog "Unable to allocate for texture"])
  else if s1.lastTex.getD level 0 ≠ psp then
    ({ s1 with
        execListQueue := s1.execListQueue ++
          [((GE_CMD_TEXBUFWIDTH0 + level) <<< 24) ||| ((psp >>> 8) &&& 0xFF0000) |||
             s1.lastBufw.getD level 0,
           ((GE_CMD_TEXADDR0 + level) <<< 24) ||| (psp &&& 0xFFFFFF)],
        lastTex := s1.lastTex.set level psp }, mev)
  else (s1, mev)

/-- `DumpExecute::Framebuf` (Playback.cpp:656-688).  The 16-byte
`FramebufData` header `{addr, bufw, flags, pad}` is read from the payload;
the remaining `sz - 16` bytes are the pixel data.  `lastBufw_` is a `u16`
array in the source, so stores truncate mod 2^16. -/
def framebufStep (c : ExecCtx) (s : ExecState) (level ptr sz : Nat) : ExecState × List Ev :=
  let addr := readU32 c.pushbuf ptr
  let bufw := readU32 c.pushbuf (ptr + 4)
  let flags := readU32 c.pushbuf (ptr + 8)
  let s1 :=
    if s.lastTex.getD level 0 ≠ addr ∨ s.lastBufw.getD level 0 ≠ bufw then
      { s with
          execListQueue := s.execListQueue ++
            [((GE_CMD_TEXBUFWIDTH0 + level) <<< 24) ||| ((addr >>> 8) &&& 0xFF0000) ||| bufw,
             ((GE_CMD_TEXADDR0 + level) <<< 24) ||| (addr &&& 0xFFFFFF)],
          lastTex := s.lastTex.set level addr,
          lastBufw := s.lastBufw.set level (bufw % 65536) }
    else s
  let pspSize := u32sub sz 16
  let isTarget := flags &&& 1 ≠ 0
  let unchangedVRAM := c.version ≥ 6 ∧ flags &&& 2 ≠ 0
  let evs :=
    if c.env.isValidRange addr pspSize ∧ ¬unchangedVRAM ∧
        (¬isTarget ∨ ¬c.env.softwareRendering) then
      [Ev.pushCopy addr (ptr + 16) pspSize, Ev.notifyMem addr pspSize]
    else []
  (s1, evs)

/-- `DumpExecute::Display` (Playback.cpp:690-705). -/
def displayStep (c : ExecCtx) (s : ExecState) (ptr : Nat) (allowFlip : Bool) :
    ExecState × List Ev :=
  let top := readU32 c.pushbuf ptr
  let linesize := readU32 c.pushbuf (ptr + 4)
  let fmt := readU32 c.pushbuf (ptr + 8)
  (s, syncStallEvents s ++ [Ev.setFramebuf top linesize fmt 1] ++
    (if allowFlip then [Ev.setFramebuf top linesize fmt 0] else []))

/-- `DumpExecute::EdramTrans` (Playback.cpp:707-716). -/
def edramTransStep (c : ExecCtx) (s : ExecState) (ptr : Nat) : ExecState × List Ev :=
  let value := readU32 c.pushbuf ptr
  (s, syncStallEvents s ++
    (if c.env.gpuPresent then [Ev.setAddrTranslation value] else []))

/-- One iteration of the dispatch switch in `DumpExecute::Run`
(Playback.cpp:744-818).  `none` is the `default:` branch: an unsupported
command type, on which the run loop returns `ReplayResult::Error`. -/
def execCommand (c : ExecCtx) (s : ExecState) (cmd : Command) (isLast : Bool) :
    Option (ExecState × List Ev) :=
  match cmd.type with
  | CommandType.INIT => some (initStep s cmd.ptr)
  | CommandType.REGISTERS => some (registersStep c s cmd.ptr cmd.sz)
  | CommandType.VERTICES => some (verticesStep c s cmd.ptr cmd.sz)
  | CommandType.INDICES => some (indicesStep c s cmd.ptr cmd.sz)
  | CommandType.CLUTADDR => some (clutAddrStep c s cmd.ptr)
  | CommandType.CLUT => some (clutStep c s cmd.ptr cmd.sz)
  | CommandType.TRANSFERSRC => some (transferSrcStep c s cmd.ptr cmd.sz)
  | CommandType.MEMSET => some (memsetStep c s cmd.ptr)
  | CommandType.MEMCPYDEST => some (memcpyDestStep c s cmd.ptr)
  | CommandType.MEMCPYDATA => some (memcpyStep c s cmd.ptr cmd.sz)
  | CommandType.EDRAMTRANS => some (edramTransStep c s cmd.ptr)
  | CommandType.TEXTURE n => some (textureStep c s n.val cmd.ptr cmd.sz)
  | CommandType.FRAMEBUF n => some (framebufStep c s n.val cmd.ptr cmd.sz)
  | CommandType.DISPLAY => some (displayStep c s cmd.ptr isLast)
  | CommandType.UNSUPPORTED _ => none

/-- The command loop of `DumpExecute::Run` (Playback.cpp:738-822):
cancellation is checked once per command; an unsupported command returns
`Error` immediately; otherwise, after the loop, `SubmitListEnd` runs and the
result is `Done`.  `Display`'s `allowFlip` is true exactly on the last
command of the sequence. -/
def runLoop (c : ExecCtx) : ExecState → List Command → ReplayResult × ExecState × List Ev
  | s, [] =>
    (ReplayResult.Done, (submitListEnd c s).1, (submitListEnd c s).2)
  | s, cmd :: rest =>
    if c.env.cancelled then
      (ReplayResult.Done, (submitListEnd c s).1, (submitListEnd c s).2)
    else
      match execCommand c s cmd rest.isEmpty with
      | none => (ReplayResult.Error, s, [Ev.errorLog "Unsupported GE dump command"])
      | some (s', evs) =>
        let rr := runLoop c s' rest
        (rr.1, rr.2.1, evs ++ rr.2.2)

/-- `DumpExecute::Run` (Playback.cpp:728-823).  `resumeIndex_` is the
constant `-1` in the source (never assigned), so the loop always starts at
command 0 and the initial resume stall never fires. -/
def run (c : ExecCtx) (s : ExecState) (cmds : List Command) :
    ReplayResult × ExecState × List Ev :=
  let pre := if c.env.gpuPresent then [Ev.setAddrTranslation 0x400] else []
  let rr := runLoop c s cmds
  (rr.1, rr.2.1, pre ++ rr.2.2)

/-! ## Dump Loader (`LoadReplay`, Playback.cpp:847-907) and entry point -/

/-- The capture file as the loader sees it.  The header fields are read
directly; the two compressed streams are abstracted by the length their
decompression actually yields (`ReadCompressed`, Playback.cpp:825-845,
succeeds iff that length equals the expected length; a short file read is
subsumed by a mismatching length). -/
structure DumpFileModel where
  magic : Nat
  version : Nat
  commandCount : Nat
  pushbufSize : Nat
  cmdDecompLen : Nat
  pushDecompLen : Nat

/-- Modelled from the spec: `sizeof(Command)` for the fixed-size record
`{type: u32, ptr: u32, sz: u32}` of section 6 (`RecordFormat.h` is not among
the sources). -/
def sizeofCommand : Nat := 12

/-- `LoadReplay` (Playback.cpp:847-907) reduced to its validation result:
returns the version on success and 0 on failure.  `headerMagic`, `MINV`
(`MIN_VERSION`) and `VERV` (`VERSION`) are the constants of
`RecordFormat.h`, kept abstract as parameters.  The game-ID/window-title
block is display-only and never fails the load (Playback.cpp:869-883). -/
def loadReplay (headerMagic MINV VERV : Nat) (f : DumpFileModel) : Nat :=
  if f.magic ≠ headerMagic ∨ f.version > VERV ∨ f.version < MINV then 0
  else if f.cmdDecompLen ≠ sizeofCommand * f.commandCount ∨
      f.pushDecompLen ≠ f.pushbufSize then 0
  else f.version

/-- The load phase of `RunMountedReplay` (Playback.cpp:965-979): when the
requested filename differs from the cached one the dump is (re)loaded, and a
zero version aborts with `ReplayResult::Error` before the replay thread is
created.  `Sum.inl r` means the entry point returns `r` here, before any
thread start; `Sum.inr v` means execution proceeds to start the replay
thread with version `v`. -/
def runMountedLoadPhase (headerMagic MINV VERV : Nat) (cachedName : String)
    (cachedVer : Nat) (filename : String) (f : DumpFileModel) : Sum ReplayResult Nat :=
  if cachedName ≠ filename then
    let v := loadReplay headerMagic MINV VERV f
    if v = 0 then Sum.inl ReplayResult.Error else Sum.inr v
  else Sum.inr cachedVer

/-- Whether the load phase reaches the thread-start code (Playback.cpp:988-998). -/
def loadPhaseStartsThread : Sum ReplayResult Nat → Bool
  | Sum.inl _ => false
  | Sum.inr _ => true

/-! ## Rendezvous Mailbox (Playback.cpp:93-121, 909-931, 1000-1064) -/

/-- The shared mailbox globals: `g_opToExec`, `g_retVal`, `g_opDone`,
`g_cancelled` (Playback.cpp:99-102). -/
structure MailboxState where
  opToExec : Operation
  retVal : Nat := 0
  opDone : Bool
  cancelled : Bool
deriving DecidableEq, Repr

/-- The finish-side wait predicate of `ExecuteOnMain` (Playback.cpp:118):
`g_opDone || g_cancelled`. -/
def finishWaitPred (m : MailboxState) : Bool := m.opDone || m.cancelled

/-- A replay context that has posted `op` and is blocked in `ExecuteOnMain`
waiting for operation completion remains blocked exactly while the wait
predicate is false.  The predicate does not depend on the operation type. -/
def finishWaitBlocked (op : Operation) (m : MailboxState) : Bool :=
  !(finishWaitPred m)

/-- The teardown signal of `Replay_Unload` (Playback.cpp:913-917): set the
one-way cancellation flag and wake the finish condition. -/
def replayUnloadSignal (m : MailboxState) : MailboxState :=
  { m with cancelled := true }

/-- The body of the replay thread started by `RunMountedReplay`
(Playback.cpp:991-997): run the executor, discard its result, and post the
terminal `Done` operation. -/
def replayThreadPost (c : ExecCtx) (s : ExecState) (cmds : List Command) : Operation :=
  let _retval := run c s cmds
  { type := OpType.Done }

/-- The value `RunMountedReplay` returns after consuming one operation (the
switch at Playback.cpp:1006-1064): every non-terminal operation requests
another invocation via `Break`; the terminal `Done` operation joins the
thread and falls through to `return ReplayResult::Done`. -/
def runMountedDispatch : OpType → ReplayResult
  | OpType.UpdateStallAddr => ReplayResult.Break
  | OpType.EnqueueList => ReplayResult.Break
  | OpType.ReapplyGfxState => ReplayResult.Break
  | OpType.ListSync => ReplayResult.Break
  | OpType.Done => ReplayResult.Done
  | OpType.None => ReplayResult.Done

/-! ## Trace predicates and invariants -/

/-- Is this event the list-sync request that `SubmitListEnd` posts?  No other
code posts a `ListSync` operation. -/
def isListSyncPost : Ev → Bool
  | Ev.opPosted OpType.ListSync _ _ => true
  | _ => false

/-- Whether a trace contains the list-finalization rendezvous of
`SubmitListEnd` (finish/end words, stall, list-sync request). -/
def finalizedTrace (evs : List Ev) : Bool := evs.any isListSyncPost

/-- The write-position invariant of the regenerated list buffer: while a
list is active, the write position lies inside the buffer with at least 8
bytes of headroom — room for one base+jump pair or one finish/end pair. -/
def listInv (s : ExecState) : Prop :=
  s.execListBuf ≠ 0 →
    s.execListBuf ≤ s.execListPos ∧ s.execListPos + 8 ≤ s.execListBuf + LIST_BUF_SIZE

/-! ## Concrete fixtures used by witnesses and counterexamples -/

/-- An environment whose range checks always fail (no guest memory mapped). -/
def envNone : Env :=
  { isValidRange := fun _ _ => false, isVRAMAddress := fun _ => false }

/-- An environment whose range checks always succeed. -/
def envAll : Env :=
  { isValidRange := fun _ _ => true, isVRAMAddress := fun _ => true }

/-- A version-6 context over an empty pushbuffer. -/
def ctx0 : ExecCtx := { env := envNone, pushbuf := [], version := 6 }

/-- A fresh executor state with an exhausted allocator. -/
def st0 : ExecState := { mapping := initMapping [] }

/-- An executor state mid-replay: the list buffer is allocated and one NOP
word has been written, as right after the first `Registers` command. -/
def stList : ExecState :=
  { mapping := initMapping [], execListBuf := 0x08900000,
    execListPos := 0x08900004, execListID := 7 }

/-- A 20-byte pushbuffer holding one `FramebufData` header
`{addr = 0x08000000, bufw = 16, flags = 2, pad = 0}` followed by 4 bytes of
pixel data.  Flag bit 1 ("content unchanged") is set; bit 0 (render target)
is clear. -/
def pushbufFB : List Nat :=
  [0, 0, 0, 8, 16, 0, 0, 0, 2, 0, 0, 0, 0, 0, 0, 0, 1, 2, 3, 4]

/-- A version-6 context over `pushbufFB` with all ranges valid. -/
def ctxV6 : ExecCtx := { env := envAll, pushbuf := pushbufFB, version := 6 }

/-- A version-5 context over `pushbufFB` with all ranges valid. -/
def ctxV5 : ExecCtx := { env := envAll, pushbuf := pushbufFB, version := 5 }

/-- A 16-byte pushbuffer of vertex-like payload. -/
def pushbuf16 : List Nat := [1, 0, 0, 0, 2, 0, 0, 0, 3, 0, 0, 0, 4, 0, 0, 0]

/-- A context over `pushbuf16` whose engine reports
`gstate.transfersrcw = 0xEC000010`. -/
def ctxP16 : ExecCtx :=
  { env := { envAll with transfersrcw := 0xEC000010 }, pushbuf := pushbuf16, version := 6 }

/-- A mid-replay state whose mapper can serve exactly one slab allocation at
`0x08A00000`. -/
def stMap : ExecState :=
  { mapping := initMapping [0x08A00000], execListBuf := 0x08900000,
    execListPos := 0x08900004, execListID := 7 }

/-- A version-6 context over a 256 KB pushbuffer of zero bytes. -/
def ctxBig : ExecCtx :=
  { env := envNone, pushbuf := List.replicate 262144 0, version := 6 }

end Playback

namespace Playback

/-! ## Claims -/

/-- C9: for every Operation type, once the cancellation flag is set and the
finish condition is signalled, a replay context blocked waiting for
operation completion unblocks even when the done flag is false: the
finish-wait predicate is the disjunction of the done flag and the
cancellation flag. -/
theorem C9_cancel_unblocks (op : Operation) (m : MailboxState) :
    finishWaitPred m = (m.opDone || m.cancelled) ∧
    finishWaitBlocked op (replayUnloadSignal m) = false ∧
    finishWaitBlocked op { m with opDone := false, cancelled := true } = false := by
  refine ⟨rfl, ?_, ?_⟩ <;>
    simp [finishWaitBlocked, finishWaitPred, replayUnloadSignal]

/-- C10: the replay thread discards the executor's result and always posts
the terminal `Done` operation; consuming it makes the entry point return
`Done`, so an executor-level `Error` is never surfaced as an `Error` return
of `RunMountedReplay`. -/
theorem C10_thread_discards_error (c : ExecCtx) (s : ExecState) (cmds : List Command) :
    (replayThreadPost c s cmds).type = OpType.Done ∧
    runMountedDispatch (replayThreadPost c s cmds).type = ReplayResult.Done ∧
    ((run c s cmds).1 = ReplayResult.Error →
      runMountedDispatch (replayThreadPost c s cmds).type = ReplayResult.Done) :=
  ⟨rfl, rfl, fun _ => rfl⟩

/-- Witness for C10 at a concrete input: a one-command sequence with an
unsupported command type makes the executor return `Error`, yet the entry
point's dispatch of the posted operation returns `Done`. -/
theorem C10_witness :
    (run ctx0 st0 [{ type := CommandType.UNSUPPORTED 99 }]).1 = ReplayResult.Error ∧
    runMountedDispatch
      (replayThreadPost ctx0 st0 [{ type := CommandType.UNSUPPORTED 99 }]).type =
      ReplayResult.Done :=
  ⟨by decide,
   (C10_thread_discards_error ctx0 st0 [{ type := CommandType.UNSUPPORTED 99 }]).2.2
     (by decide)⟩

/-- C6: a capture file with wrong magic, an out-of-range version, or a
decompressed-length mismatch on either stream fails the load (`LoadReplay`
returns 0), the entry point returns `Error`, and the replay thread is never
started. -/
theorem C6_load_rejects (headerMagic MINV VERV cachedVer : Nat)
    (cachedName filename : String) (f : DumpFileModel)
    (hfresh : cachedName ≠ filename)
    (hbad : f.magic ≠ headerMagic ∨ f.version > VERV ∨ f.version < MINV ∨
            f.cmdDecompLen ≠ sizeofCommand * f.commandCount ∨
            f.pushDecompLen ≠ f.pushbufSize) :
    loadReplay headerMagic MINV VERV f = 0 ∧
    runMountedLoadPhase headerMagic MINV VERV cachedName cachedVer filename f =
      Sum.inl ReplayResult.Error ∧
    loadPhaseStartsThread
      (runMountedLoadPhase headerMagic MINV VERV cachedName cachedVer filename f) =
      false := by
  have hload : loadReplay headerMagic MINV VERV f = 0 := by
    unfold loadReplay
    rcases hbad with h | h | h | h | h
    · rw [if_pos (Or.inl h)]
    · rw [if_pos (Or.inr (Or.inl h))]
    · rw [if_pos (Or.inr (Or.inr h))]
    · by_cases hhdr : f.magic ≠ headerMagic ∨ f.version > VERV ∨ f.version < MINV
      · rw [if_pos hhdr]
      · rw [if_neg hhdr, if_pos (Or.inl h)]
    · by_cases hhdr : f.magic ≠ headerMagic ∨ f.version > VERV ∨ f.version < MINV
      · rw [if_pos hhdr]
      · rw [if_neg hhdr, if_pos (Or.inr h)]
  refine ⟨hload, ?_, ?_⟩ <;>
    simp [runMountedLoadPhase, hfresh, hload, loadPhaseStartsThread]

/-- The event component of the `Framebuf` handler, isolated. -/
theorem framebufStep_snd (c : ExecCtx) (s : ExecState) (level ptr sz : Nat) :
    (framebufStep c s level ptr sz).2 =
      if c.env.isValidRange (readU32 c.pushbuf ptr) (u32sub sz 16) ∧
          ¬(c.version ≥ 6 ∧ readU32 c.pushbuf (ptr + 8) &&& 2 ≠ 0) ∧
          (¬(readU32 c.pushbuf (ptr + 8) &&& 1 ≠ 0) ∨ ¬(c.env.softwareRendering = true)) then
        [Ev.pushCopy (readU32 c.pushbuf ptr) (ptr + 16) (u32sub sz 16),
         Ev.notifyMem (readU32 c.pushbuf ptr) (u32sub sz 16)]
      else [] := rfl

/-- C2: for every `Framebuf` command, under format version at least 6 a set
"content unchanged" flag (bit 1) suppresses the pixel-data copy into video
memory; under version below 6 the bit is ignored and the copy happens
exactly when the destination range is valid and the render-target /
software-rendering guard permits. -/
theorem C2_framebuf_unchanged_flag (c : ExecCtx) (s : ExecState) (level ptr sz : Nat) :
    (c.version ≥ 6 → readU32 c.pushbuf (ptr + 8) &&& 2 ≠ 0 →
      ∀ dst srcOff len, Ev.pushCopy dst srcOff len ∉ (framebufStep c s level ptr sz).2) ∧
    (c.version < 6 →
      ((∃ dst srcOff len, Ev.pushCopy dst srcOff len ∈ (framebufStep c s level ptr sz).2) ↔
        (c.env.isValidRange (readU32 c.pushbuf ptr) (u32sub sz 16) = true ∧
         (readU32 c.pushbuf (ptr + 8) &&& 1 = 0 ∨ c.env.softwareRendering = false)))) := by
  rw [framebufStep_snd c s level ptr sz]
  constructor
  · intro h6 hbit dst srcOff len
    rw [if_neg]
    · simp
    · rintro ⟨-, hU, -⟩
      exact hU ⟨h6, hbit⟩
  · intro h6
    have hU : ¬(c.version ≥ 6 ∧ readU32 c.pushbuf (ptr + 8) &&& 2 ≠ 0) := by
      rintro ⟨h, -⟩; omega
    by_cases hA : c.env.isValidRange (readU32 c.pushbuf ptr) (u32sub sz 16) = true
    · by_cases hT : readU32 c.pushbuf (ptr + 8) &&& 1 = 0
      · rw [if_pos ⟨hA, hU, Or.inl (by simpa using hT)⟩]
        simp [hA, hT]
      · by_cases hS : c.env.softwareRendering = true
        · rw [if_neg]
          · constructor
            · rintro ⟨_, _, _, h⟩
              exact absurd h (List.not_mem_nil _)
            · rintro ⟨-, hOr⟩
              rcases hOr with h | h
              · exact absurd h hT
              · simp [hS] at h
          · rintro ⟨-, -, hTS⟩
            rcases hTS with h | h
            · exact h (by simpa using hT)
            · exact h hS
        · rw [if_pos ⟨hA, hU, Or.inr hS⟩]
          simp only [Bool.not_eq_true] at hS
          simp [hA, hS]
    · rw [if_neg]
      · simp [hA]
      · rintro ⟨h, -⟩
        exact hA h

/-- Reading an updated position of a list, in range. -/
theorem getD_set_self {α : Type} (a d : α) :
    ∀ (l : List α) (i : Nat), i < l.length → (l.set i a).getD i d = a
  | [], i, h => absurd h (by simp)
  | _ :: _, 0, _ => rfl
  | _ :: xs, i + 1, h => getD_set_self a d xs i (by simpa using h)

/-- Reading a position other than the updated one. -/
theorem getD_set_ne {α : Type} (a d : α) :
    ∀ (l : List α) (i j : Nat), i ≠ j → (l.set i a).getD j d = l.getD j d
  | [], _, _, _ => by simp
  | _ :: _, 0, 0, h => absurd rfl h
  | _ :: _, 0, _ + 1, _ => rfl
  | _ :: _, _ + 1, 0, _ => rfl
  | _ :: xs, i + 1, j + 1, h => getD_set_ne a d xs i j fun hh => h (by rw [hh])

/-- On a full miss, the `MapSlab` scan's tracked index has maximal age among
the initial candidate and every scanned index. -/
theorem slabScan_inr_maxAge (slabs : List SlabInfo) (gen slab_pos : Nat) :
    ∀ (idx : List Nat) (best b : Nat),
      slabScan slabs gen slab_pos idx best = Sum.inr b →
      (slabs.getD best default).Age gen ≤ (slabs.getD b default).Age gen ∧
      ∀ i ∈ idx, (slabs.getD i default).Age gen ≤ (slabs.getD b default).Age gen := by
  intro idx
  induction idx with
  | nil =>
    intro best b h
    simp only [slabScan] at h
    cases h
    exact ⟨le_refl _, by simp⟩
  | cons i rest ih =>
    intro best b h
    simp only [slabScan] at h
    by_cases hm : ((slabs.getD i default).Matches slab_pos) = true
    · rw [if_pos hm] at h
      cases h
    · rw [if_neg hm] at h
      by_cases hgt : (slabs.getD i default).Age gen > (slabs.getD best default).Age gen
      · rw [if_pos hgt] at h
        obtain ⟨h1, h2⟩ := ih _ b h
        refine ⟨le_trans (le_of_lt hgt) h1, ?_⟩
        intro j hj
        rcases List.mem_cons.mp hj with rfl | hj
        · exact h1
        · exact h2 j hj
      · rw [if_neg hgt] at h
        obtain ⟨h1, h2⟩ := ih _ b h
        refine ⟨h1, ?_⟩
        intro j hj
        rcases List.mem_cons.mp hj with rfl | hj
        · exact le_trans (not_lt.mp hgt) h1
        · exact h2 j hj

/-- The index a full-miss scan returns is the initial candidate or one of
the scanned indices. -/
theorem slabScan_inr_mem (slabs : List SlabInfo) (gen slab_pos : Nat) :
    ∀ (idx : List Nat) (best b : Nat),
      slabScan slabs gen slab_pos idx best = Sum.inr b → b = best ∨ b ∈ idx := by
  intro idx
  induction idx with
  | nil =>
    intro best b h
    simp only [slabScan] at h
    cases h
    exact Or.inl rfl
  | cons i rest ih =>
    intro best b h
    simp only [slabScan] at h
    by_cases hm : ((slabs.getD i default).Matches slab_pos) = true
    · rw [if_pos hm] at h
      cases h
    · rw [if_neg hm] at h
      by_cases hgt : (slabs.getD i default).Age gen > (slabs.getD best default).Age gen
      · rw [if_pos hgt] at h
        rcases ih _ b h with rfl | hmem
        · exact Or.inr (List.mem_cons_self _ _)
        · exact Or.inr (List.mem_cons_of_mem _ hmem)
      · rw [if_neg hgt] at h
        rcases ih _ b h with rfl | hmem
        · exact Or.inl rfl
        · exact Or.inr (List.mem_cons_of_mem _ hmem)

/-- C3: along any sequence of `Map` calls, whenever the single-slab path
misses (so a slab is set up over, evicting its previous content), the slab
the scan chooses has maximal generation-age among all ten slabs at that
moment — LRU by generation stamp, unallocated slabs counting as maximally
aged — and no other slab is overwritten. -/
theorem C3_slab_eviction_lru (allocs : List Nat) (pushlen : Nat)
    (calls : List (Nat × Nat)) (m : BufMappingState)
    (hm : m = runMaps pushlen (initMapping allocs) calls)
    (bufpos b : Nat) (flushEvs : List Ev)
    (hmiss : slabScan m.slabs m.gen (bufpos / SLAB_SIZE * SLAB_SIZE)
      (List.range SLAB_COUNT) 0 = Sum.inr b) :
    (∀ i < SLAB_COUNT,
      (m.slabs.getD i default).Age m.gen ≤ (m.slabs.getD b default).Age m.gen) ∧
    (∀ j < SLAB_COUNT, j ≠ b →
      (mapSlab m pushlen bufpos flushEvs).2.1.slabs.getD j default =
        m.slabs.getD j default) := by
  constructor
  · intro i hi
    exact (slabScan_inr_maxAge m.slabs m.gen _ _ 0 b hmiss).2 i (List.mem_range.mpr hi)
  · intro j hj hjb
    simp only [mapSlab]
    rw [hmiss]
    split
    next i heq => cases heq
    next best heq =>
      injection heq with heq
      subst heq
      split
      · rfl
      · exact getD_set_ne _ _ _ _ j fun h => hjb h.symm

/-- A scan over entries that all fail to match finds nothing. -/
theorem extraScan_none (extras : List ExtraInfo) (bufpos sz : Nat) :
    ∀ idx, (∀ i ∈ idx, (extras.getD i default).Matches bufpos sz = false) →
      extraScan extras bufpos sz idx = none := by
  intro idx
  induction idx with
  | nil => intro _; rfl
  | cons i rest ih =>
    intro h
    simp only [extraScan]
    rw [if_neg]
    · exact ih fun j hj => h j (List.mem_cons_of_mem _ hj)
    · rw [h i (List.mem_cons_self _ _)]
      simp

/-- A scan finds the unique matching index. -/
theorem extraScan_first (extras : List ExtraInfo) (bufpos sz i : Nat)
    (hi : (extras.getD i default).Matches bufpos sz = true) :
    ∀ idx, i ∈ idx →
      (∀ j ∈ idx, j ≠ i → (extras.getD j default).Matches bufpos sz = false) →
      extraScan extras bufpos sz idx = some i := by
  intro idx
  induction idx with
  | nil => intro h _; cases h
  | cons j rest ih =>
    intro hmem hothers
    simp only [extraScan]
    by_cases hji : j = i
    · subst hji
      rw [if_pos hi]
    · rw [if_neg]
      · refine ih ?_ fun k hk => hothers k (List.mem_cons_of_mem _ hk)
        rcases List.mem_cons.mp hmem with rfl | h
        · exact absurd rfl hji
        · exact h
      · rw [hothers j (List.mem_cons_self _ _) hji]
        simp

/-- Freeing every extra preserves the pool size. -/
theorem freeAllExtras_length (l : List ExtraInfo) :
    (freeAllExtras l).1.length = l.length := by
  induction l with
  | nil => rfl
  | cons e rest ih => simp [freeAllExtras, ih]

/-- After freeing every extra, every entry reads as unallocated. -/
theorem freeAllExtras_psp (l : List ExtraInfo) :
    ∀ j, ((freeAllExtras l).1.getD j default).psp_pointer = 0 := by
  induction l with
  | nil => intro j; cases j <;> rfl
  | cons e rest ih =>
    intro j
    cases j with
    | zero =>
      show ((extraFree e).1).psp_pointer = 0
      unfold extraFree
      split
      · rfl
      · next h => simpa using h
    | succ j => exact ih j

/-- `ExtraInfo::Alloc` on a successful allocator response. -/
theorem extraAllocOne_ok (e : ExtraInfo) (bufpos sz a : Nat) (rest : List Nat)
    (ha : a ≠ 0) :
    extraAllocOne e bufpos sz (a :: rest) =
      (true, { psp_pointer := a, buf_pointer := bufpos, size := sz }, rest,
       (if e.psp_pointer ≠ 0 then [Ev.freeMem e.psp_pointer] else []) ++
         [Ev.alloc sz a, Ev.pushCopy a bufpos sz]) := by
  simp [extraAllocOne, ha]

/-- `ExtraInfo::Alloc` on a failing allocator response. -/
theorem extraAllocOne_fail (e : ExtraInfo) (bufpos sz : Nat) (rest : List Nat) :
    extraAllocOne e bufpos sz (0 :: rest) =
      (false, (if e.psp_pointer ≠ 0 then { e with psp_pointer := 0, buf_pointer := 0 } else e),
       rest,
       (if e.psp_pointer ≠ 0 then [Ev.freeMem e.psp_pointer] else []) ++ [Ev.alloc sz 0]) := by
  simp [extraAllocOne]

/-- `ExtraInfo::Alloc` on an exhausted allocator oracle. -/
theorem extraAllocOne_nil (e : ExtraInfo) (bufpos sz : Nat) :
    extraAllocOne e bufpos sz [] =
      (false, (if e.psp_pointer ≠ 0 then { e with psp_pointer := 0, buf_pointer := 0 } else e),
       [],
       (if e.psp_pointer ≠ 0 then [Ev.freeMem e.psp_pointer] else []) ++ [Ev.alloc sz 0]) := by
  simp [extraAllocOne]

/-- Updating one entry of an all-unallocated pool keeps the others
unallocated. -/
theorem psp_set_ne (L : List ExtraInfo) (i j : Nat) (e : ExtraInfo) (hij : i ≠ j)
    (h : ∀ k, ((L.getD k default)).psp_pointer = 0) :
    ((L.set i e).getD j default).psp_pointer = 0 := by
  rw [getD_set_ne _ _ _ _ _ hij]
  exact h j

/-- `MapExtra` on a miss reduces to the round-robin eviction branch. -/
theorem mapExtra_miss (m : BufMappingState) (bufpos sz : Nat) (flushEvs : List Ev)
    (hscan : extraScan m.extras bufpos sz (List.range EXTRA_COUNT) = none) :
    mapExtra m bufpos sz flushEvs =
      (let i := m.extraOffset
       let m1 : BufMappingState := { m with extraOffset := (m.extraOffset + 1) % EXTRA_COUNT }
       let t1 := extraAllocOne (m1.extras.getD i default) bufpos sz m1.allocs
       if t1.1 then
         (t1.2.1.psp_pointer,
          { m1 with extras := m1.extras.set i t1.2.1, allocs := t1.2.2.1 },
          flushEvs ++ t1.2.2.2)
       else
         let fa := freeAllExtras (m1.extras.set i t1.2.1)
         let t2 := extraAllocOne (fa.1.getD i default) bufpos sz t1.2.2.1
         if t2.1 then
           (t2.2.1.psp_pointer,
            { m1 with extras := fa.1.set i t2.2.1, allocs := t2.2.2.1 },
            flushEvs ++ t1.2.2.2 ++ fa.2 ++ t2.2.2.2)
         else
           (0, { m1 with extras := fa.1.set i t2.2.1, allocs := t2.2.2.1 },
            flushEvs ++ t1.2.2.2 ++ fa.2 ++ t2.2.2.2)) := by
  simp only [mapExtra]
  rw [hscan]

/-- C4: on every extra-path miss the slot selected is the next one in strict
round-robin order (`extraOffset` incremented mod 10), independent of access
recency; flush runs first; the slot's previous content is freed and the
range allocated and copied; if that allocation fails, all extra entries are
freed once and the same slot retried; if the retry also fails, `Map`
returns 0. -/
theorem C4_extra_round_robin (m : BufMappingState) (bufpos sz : Nat) (flushEvs : List Ev)
    (hlen : m.extras.length = EXTRA_COUNT) (hoff : m.extraOffset < EXTRA_COUNT)
    (hmiss : ∀ i < EXTRA_COUNT, (m.extras.getD i default).Matches bufpos sz = false) :
    ((mapExtra m bufpos sz flushEvs).2.1.extraOffset = (m.extraOffset + 1) % EXTRA_COUNT) ∧
    ((mapExtra m bufpos sz flushEvs).2.2.take flushEvs.length = flushEvs) ∧
    ((m.extras.getD m.extraOffset default).psp_pointer ≠ 0 →
      Ev.freeMem (m.extras.getD m.extraOffset default).psp_pointer ∈
        (mapExtra m bufpos sz flushEvs).2.2) ∧
    (∀ a rest, m.allocs = a :: rest → a ≠ 0 →
      (mapExtra m bufpos sz flushEvs).1 = a ∧
      (mapExtra m bufpos sz flushEvs).2.1.extras.getD m.extraOffset default =
        { psp_pointer := a, buf_pointer := bufpos, size := sz } ∧
      Ev.pushCopy a bufpos sz ∈ (mapExtra m bufpos sz flushEvs).2.2) ∧
    (∀ a2 rest, m.allocs = 0 :: a2 :: rest → a2 ≠ 0 →
      (mapExtra m bufpos sz flushEvs).1 = a2 ∧
      (mapExtra m bufpos sz flushEvs).2.1.extras.getD m.extraOffset default =
        { psp_pointer := a2, buf_pointer := bufpos, size := sz } ∧
      ∀ j < EXTRA_COUNT, j ≠ m.extraOffset →
        ((mapExtra m bufpos sz flushEvs).2.1.extras.getD j default).psp_pointer = 0) ∧
    (∀ rest, m.allocs = 0 :: 0 :: rest → (mapExtra m bufpos sz flushEvs).1 = 0) := by
  have hscan : extraScan m.extras bufpos sz (List.range EXTRA_COUNT) = none :=
    extraScan_none m.extras bufpos sz _ fun i hi => hmiss i (List.mem_range.mp hi)
  have heq := mapExtra_miss m bufpos sz flushEvs hscan
  refine ⟨?_, ?_, ?_, ?_, ?_, ?_⟩
  · simp only [heq]
    split
    · rfl
    · split <;> rfl
  · simp only [heq]
    split
    · exact List.take_left _ _
    · split <;>
        (rw [List.append_assoc, List.append_assoc]; exact List.take_left _ _)
  · intro hold
    simp only [heq]
    have hold' : ¬(m.extras[m.extraOffset]?.getD default).psp_pointer = 0 := by
      rw [← List.getD_eq_getElem?_getD]
      exact hold
    rcases hallocs : m.allocs with _ | ⟨a, rest⟩
    · rw [extraAllocOne_nil, if_pos hold]
      simp
      try (split <;> simp <;> exact Or.inr (Or.inl hold'))
    · by_cases ha : a = 0
      · subst ha
        rw [extraAllocOne_fail, if_pos hold]
        simp
        try (split <;> simp <;> exact Or.inr (Or.inl hold'))
      · rw [extraAllocOne_ok _ _ _ _ _ ha, if_pos hold]
        simp
        try (split <;> simp <;> exact Or.inr (Or.inl hold'))
  · intro a rest hallocs ha
    simp only [heq, hallocs]
    rw [extraAllocOne_ok _ _ _ _ _ ha]
    refine ⟨rfl, ?_, by simp⟩
    exact getD_set_self _ _ _ _ (by rw [hlen]; exact hoff)
  · intro a2 rest hallocs ha2
    simp only [heq, hallocs]
    rw [extraAllocOne_fail]
    have hfa := freeAllExtras_psp (m.extras.set m.extraOffset
      (if (m.extras.getD m.extraOffset default).psp_pointer ≠ 0 then
        { m.extras.getD m.extraOffset default with psp_pointer := 0, buf_pointer := 0 }
       else m.extras.getD m.extraOffset default))
    rw [extraAllocOne_ok _ _ _ _ _ ha2]
    have hfalen : (freeAllExtras (m.extras.set m.extraOffset
        (if (m.extras.getD m.extraOffset default).psp_pointer ≠ 0 then
          { m.extras.getD m.extraOffset default with psp_pointer := 0, buf_pointer := 0 }
         else m.extras.getD m.extraOffset default))).1.length = EXTRA_COUNT := by
      rw [freeAllExtras_length, List.length_set, hlen]
    refine ⟨rfl, ?_, ?_⟩
    · exact getD_set_self _ _ _ _ (by rw [hfalen]; exact hoff)
    · intro j hj hjo
      exact psp_set_ne _ _ _ _ (fun h => hjo h.symm) hfa
  · intro rest hallocs
    simp only [heq, hallocs]
    rw [extraAllocOne_fail]
    rw [extraAllocOne_fail]
    rfl

/-- `Map` on a single-slab range whose window is the most recent slab. -/
theorem bufMap_shortcut (m : BufMappingState) (pushlen bufpos sz : Nat) (fl : List Ev)
    (hss : bufpos / SLAB_SIZE = u32sub (bufpos + sz) 1 / SLAB_SIZE)
    (hsc : (m.slabs.getD m.lastSlab default).Matches (bufpos / SLAB_SIZE * SLAB_SIZE) = true) :
    bufMap m pushlen bufpos sz fl =
      ((m.slabs.getD m.lastSlab default).psp_pointer +
         (bufpos - (m.slabs.getD m.lastSlab default).buf_pointer),
       { m with
           slabs := m.slabs.set m.lastSlab
             ({ m.slabs.getD m.lastSlab default with last_used := m.gen }) },
       []) := by
  simp only [bufMap]
  rw [if_pos hss, if_pos hsc]

/-- `Map` on a single-slab range that misses the most recent slab. -/
theorem bufMap_slab (m : BufMappingState) (pushlen bufpos sz : Nat) (fl : List Ev)
    (hss : bufpos / SLAB_SIZE = u32sub (bufpos + sz) 1 / SLAB_SIZE)
    (hsc : ¬(m.slabs.getD m.lastSlab default).Matches (bufpos / SLAB_SIZE * SLAB_SIZE) = true) :
    bufMap m pushlen bufpos sz fl = mapSlab m pushlen bufpos fl := by
  simp only [bufMap]
  rw [if_pos hss, if_neg hsc]

/-- `Map` on a straddling or oversized range goes to the extra path. -/
theorem bufMap_extra_eq (m : BufMappingState) (pushlen bufpos sz : Nat) (fl : List Ev)
    (hss : ¬bufpos / SLAB_SIZE = u32sub (bufpos + sz) 1 / SLAB_SIZE) :
    bufMap m pushlen bufpos sz fl = mapExtra m bufpos sz fl := by
  simp only [bufMap]
  rw [if_neg hss]

/-- `MapSlab` on a scan hit marks the slab used and returns its window. -/
theorem mapSlab_hit (m : BufMappingState) (pushlen bufpos : Nat) (fl : List Ev) (i : Nat)
    (hscan : slabScan m.slabs m.gen (bufpos / SLAB_SIZE * SLAB_SIZE)
      (List.range SLAB_COUNT) 0 = Sum.inl i) :
    mapSlab m pushlen bufpos fl =
      ((m.slabs.getD i default).psp_pointer + (bufpos - (m.slabs.getD i default).buf_pointer),
       { m with
           slabs := m.slabs.set i
             ({ m.slabs.getD i default with last_used := m.gen }) },
       []) := by
  simp only [mapSlab]
  rw [hscan]

/-- `MapSlab` on a scan miss sets up the best (oldest) slab. -/
theorem mapSlab_miss2 (m : BufMappingState) (pushlen bufpos : Nat) (fl : List Ev) (best : Nat)
    (hscan : slabScan m.slabs m.gen (bufpos / SLAB_SIZE * SLAB_SIZE)
      (List.range SLAB_COUNT) 0 = Sum.inr best) :
    mapSlab m pushlen bufpos fl =
      (if (slabSetupAlloc (m.slabs.getD best default) m.allocs).1 = 0 then
        (0, { m with allocs := (slabSetupAlloc (m.slabs.getD best default) m.allocs).2.1 },
         fl ++ (slabSetupAlloc (m.slabs.getD best default) m.allocs).2.2)
       else
        ((slabSetupAlloc (m.slabs.getD best default) m.allocs).1 +
           (bufpos - bufpos / SLAB_SIZE * SLAB_SIZE),
         { m with
           slabs := m.slabs.set best
             ({ psp_pointer := (slabSetupAlloc (m.slabs.getD best default) m.allocs).1,
                buf_pointer := bufpos / SLAB_SIZE * SLAB_SIZE,
                last_used := m.gen + 1 }),
           gen := m.gen + 1, lastSlab := best,
           allocs := (slabSetupAlloc (m.slabs.getD best default) m.allocs).2.1 },
         fl ++ (slabSetupAlloc (m.slabs.getD best default) m.allocs).2.2 ++
           [Ev.pushCopy (slabSetupAlloc (m.slabs.getD best default) m.allocs).1
             (bufpos / SLAB_SIZE * SLAB_SIZE)
             (min SLAB_SIZE (u32sub pushlen (bufpos / SLAB_SIZE * SLAB_SIZE)))])) := by
  simp only [mapSlab]
  rw [hscan]

/-- `MapExtra` on a scan hit returns the cached window unchanged. -/
theorem mapExtra_hit (m : BufMappingState) (bufpos sz : Nat) (fl : List Ev) (i : Nat)
    (hscan : extraScan m.extras bufpos sz (List.range EXTRA_COUNT) = some i) :
    mapExtra m bufpos sz fl = ((m.extras.getD i default).psp_pointer, m, []) := by
  simp only [mapExtra]
  rw [hscan]

/-- Marking a slab used changes no slab's `Matches` verdict. -/
theorem matches_mark (slabs : List SlabInfo) (i g pos : Nat) :
    ∀ k, ((slabs.set i { slabs.getD i default with last_used := g }).getD k default).Matches pos
      = (slabs.getD k default).Matches pos := by
  intro k
  by_cases hik : i = k
  · subst hik
    by_cases hlen : i < slabs.length
    · rw [getD_set_self _ _ _ _ hlen]
      rfl
    · rw [List.set_eq_of_length_le (le_of_not_lt hlen)]
  · rw [getD_set_ne _ _ _ _ _ hik]

/-- Marking a slab used changes neither its window nor its mirrored offset. -/
theorem getD_mark_psp (slabs : List SlabInfo) (i g : Nat) :
    ((slabs.set i { slabs.getD i default with last_used := g }).getD i default).psp_pointer
        = (slabs.getD i default).psp_pointer ∧
    ((slabs.set i { slabs.getD i default with last_used := g }).getD i default).buf_pointer
        = (slabs.getD i default).buf_pointer := by
  by_cases hlen : i < slabs.length
  · rw [getD_set_self _ _ _ _ hlen]
    exact ⟨rfl, rfl⟩
  · rw [List.set_eq_of_length_le (le_of_not_lt hlen)]
    exact ⟨rfl, rfl⟩

/-- A scan hit only depends on the per-slab `Matches` verdicts. -/
theorem slabScan_inl_congr (slabs slabs' : List SlabInfo) (gen gen' slab_pos : Nat)
    (hmt : ∀ k, (slabs'.getD k default).Matches slab_pos
      = (slabs.getD k default).Matches slab_pos) :
    ∀ (idx : List Nat) (best best' i : Nat),
      slabScan slabs gen slab_pos idx best = Sum.inl i →
      slabScan slabs' gen' slab_pos idx best' = Sum.inl i := by
  intro idx
  induction idx with
  | nil =>
    intro best best' i h
    simp only [slabScan] at h
    cases h
  | cons j rest ih =>
    intro best best' i h
    simp only [slabScan] at h ⊢
    by_cases hm : (slabs.getD j default).Matches slab_pos = true
    · rw [if_pos hm] at h
      rw [if_pos (by rw [hmt j]; exact hm)]
      exact h
    · rw [if_neg hm] at h
      rw [if_neg (by rw [hmt j]; exact hm)]
      exact ih _ _ i h

/-- A scan that finds nothing certifies that nothing matches. -/
theorem extraScan_none_rev (extras : List ExtraInfo) (bufpos sz : Nat) :
    ∀ idx, extraScan extras bufpos sz idx = none →
      ∀ i ∈ idx, (extras.getD i default).Matches bufpos sz = false := by
  intro idx
  induction idx with
  | nil =>
    intro _ i hi
    cases hi
  | cons j rest ih =>
    intro h i hi
    simp only [extraScan] at h
    by_cases hm : (extras.getD j default).Matches bufpos sz = true
    · rw [if_pos hm] at h
      cases h
    · rw [if_neg hm] at h
      rcases List.mem_cons.mp hi with rfl | hi'
      · simpa using hm
      · exact ih h i hi'

/-- An unallocated extra entry never matches. -/
theorem extraMatches_of_psp_zero (e : ExtraInfo) (bufpos sz : Nat)
    (h : e.psp_pointer = 0) : e.Matches bufpos sz = false := by
  simp [ExtraInfo.Matches, h]

/-- A freshly allocated extra entry matches its own range. -/
theorem extraMatches_self (a bufpos sz : Nat) (ha : a ≠ 0) :
    ExtraInfo.Matches { psp_pointer := a, buf_pointer := bufpos, size := sz } bufpos sz
      = true := by
  simp [ExtraInfo.Matches, ha]

/-- Setting one index leaves the other entries' `Matches` verdict alone. -/
theorem matches_after_set (L : List ExtraInfo) (i j : Nat) (e : ExtraInfo)
    (hij : i ≠ j) (bufpos sz : Nat) :
    ((L.set i e).getD j default).Matches bufpos sz =
      (L.getD j default).Matches bufpos sz := by
  rw [getD_set_ne _ _ _ _ _ hij]

/-- Setting an entry preserves a known pool size. -/
theorem length_set_eq {α : Type} (l : List α) (i : Nat) (a : α) (n : Nat)
    (h : l.length = n) : (l.set i a).length = n := by
  rw [List.length_set]
  exact h

/-- The selected slot index stays within the freed pool. -/
theorem off_lt_freeAll_set (M : List ExtraInfo) (i : Nat) (X : ExtraInfo)
    (hM : M.length = EXTRA_COUNT) (hi : i < EXTRA_COUNT) :
    i < (freeAllExtras (M.set i X)).1.length := by
  rw [freeAllExtras_length, List.length_set, hM]
  exact hi

/-- Pool size after the free-all-and-retry recovery. -/
theorem freeAll_set_len (M : List ExtraInfo) (i : Nat) (X : ExtraInfo) (j : Nat)
    (Y : ExtraInfo) (hM : M.length = EXTRA_COUNT) :
    ((freeAllExtras (M.set i X)).1.set j Y).length = EXTRA_COUNT := by
  rw [List.length_set, freeAllExtras_length, List.length_set]
  exact hM

/-- After a successful miss-path `MapExtra`, the selected slot holds exactly
the requested range at the returned window, every other slot fails to match
that range, and the pool size is preserved. -/
theorem mapExtra_miss_success (m : BufMappingState) (bufpos sz : Nat) (fl : List Ev)
    (helen : m.extras.length = EXTRA_COUNT) (hoff : m.extraOffset < EXTRA_COUNT)
    (hescan : extraScan m.extras bufpos sz (List.range EXTRA_COUNT) = none)
    (h1 : (mapExtra m bufpos sz fl).1 ≠ 0) :
    (mapExtra m bufpos sz fl).2.1.extras.getD m.extraOffset default =
      { psp_pointer := (mapExtra m bufpos sz fl).1, buf_pointer := bufpos, size := sz } ∧
    (∀ k < EXTRA_COUNT, k ≠ m.extraOffset →
      ((mapExtra m bufpos sz fl).2.1.extras.getD k default).Matches bufpos sz = false) ∧
    (mapExtra m bufpos sz fl).2.1.extras.length = EXTRA_COUNT := by
  have e1 := mapExtra_miss m bufpos sz fl hescan
  have hnomatch := extraScan_none_rev m.extras bufpos sz _ hescan
  rcases hallocs : m.allocs with _ | ⟨a, rest⟩
  · exfalso
    apply h1
    simp only [e1, hallocs, extraAllocOne_nil]
    simp
  · by_cases ha : a = 0
    · subst ha
      rcases rest with _ | ⟨a2, rest2⟩
      · exfalso
        apply h1
        simp only [e1, hallocs, extraAllocOne_fail, extraAllocOne_nil]
        simp
      · by_cases ha2 : a2 = 0
        · subst ha2
          exfalso
          apply h1
          simp only [e1, hallocs, extraAllocOne_fail]
          simp
        · -- first allocation fails, the retry on the same slot succeeds
          simp only [e1, hallocs]
          rw [extraAllocOne_fail]
          rw [extraAllocOne_ok _ _ _ _ _ ha2]
          refine ⟨?_, ?_, ?_⟩
          · exact getD_set_self _ _ _ _ (off_lt_freeAll_set m.extras m.extraOffset _ helen hoff)
          · intro k hk hko
            exact (matches_after_set _ m.extraOffset k _ (fun h => hko h.symm) bufpos sz).trans
              (extraMatches_of_psp_zero _ bufpos sz (freeAllExtras_psp _ k))
          · exact freeAll_set_len m.extras m.extraOffset _ m.extraOffset _ helen
    · -- the first allocation succeeds
      simp only [e1, hallocs]
      rw [extraAllocOne_ok _ _ _ _ _ ha]
      refine ⟨?_, ?_, ?_⟩
      · exact getD_set_self _ _ _ _ (by rw [helen]; exact hoff)
      · intro k hk hko
        exact (matches_after_set m.extras m.extraOffset k _ (fun h => hko h.symm) bufpos sz).trans
          (hnomatch k (List.mem_range.mpr hk))
      · exact length_set_eq _ _ _ _ helen

/-- C5: two consecutive `Map` calls with the identical `(bufpos, sz)` and no
intervening state change return the same emulated address when the first
call succeeded, and the second call performs no allocation, no copy of
pushbuffer bytes, and no flush — its event trace is empty, because it hits
the most-recent-slab shortcut, a matching slab, or a matching extra entry. -/
theorem C5_map_idempotent (m : BufMappingState) (pushlen bufpos sz : Nat) (fl : List Ev)
    (hslen : m.slabs.length = SLAB_COUNT) (helen : m.extras.length = EXTRA_COUNT)
    (hoff : m.extraOffset < EXTRA_COUNT)
    (h1 : (bufMap m pushlen bufpos sz fl).1 ≠ 0) :
    (bufMap (bufMap m pushlen bufpos sz fl).2.1 pushlen bufpos sz fl).1 =
      (bufMap m pushlen bufpos sz fl).1 ∧
    (bufMap (bufMap m pushlen bufpos sz fl).2.1 pushlen bufpos sz fl).2.2 = [] := by
  by_cases hss : bufpos / SLAB_SIZE = u32sub (bufpos + sz) 1 / SLAB_SIZE
  · by_cases hsc : (m.slabs.getD m.lastSlab default).Matches
        (bufpos / SLAB_SIZE * SLAB_SIZE) = true
    · -- most-recent-slab shortcut
      have e1 := bufMap_shortcut m pushlen bufpos sz fl hss hsc
      rw [e1]
      dsimp only
      have hsc2 : ((m.slabs.set m.lastSlab
          { m.slabs.getD m.lastSlab default with last_used := m.gen }).getD
            m.lastSlab default).Matches (bufpos / SLAB_SIZE * SLAB_SIZE) = true := by
        rw [matches_mark]
        exact hsc
      rw [bufMap_shortcut _ pushlen bufpos sz fl hss hsc2]
      refine ⟨?_, rfl⟩
      dsimp only
      rw [(getD_mark_psp m.slabs m.lastSlab m.gen).1,
          (getD_mark_psp m.slabs m.lastSlab m.gen).2]
    · -- slab path
      have e0 := bufMap_slab m pushlen bufpos sz fl hss hsc
      cases hscan : slabScan m.slabs m.gen (bufpos / SLAB_SIZE * SLAB_SIZE)
          (List.range SLAB_COUNT) 0 with
      | inl i =>
        have e1 := mapSlab_hit m pushlen bufpos fl i hscan
        rw [e0, e1]
        dsimp only
        have hsc2 : ¬((m.slabs.set i
            { m.slabs.getD i default with last_used := m.gen }).getD
              m.lastSlab default).Matches (bufpos / SLAB_SIZE * SLAB_SIZE) = true := by
          rw [matches_mark]
          exact hsc
        rw [bufMap_slab _ pushlen bufpos sz fl hss hsc2]
        have hscan2 : slabScan (m.slabs.set i
            { m.slabs.getD i default with last_used := m.gen }) m.gen
            (bufpos / SLAB_SIZE * SLAB_SIZE) (List.range SLAB_COUNT) 0 = Sum.inl i :=
          slabScan_inl_congr m.slabs _ m.gen m.gen _ (matches_mark m.slabs i m.gen _)
            (List.range SLAB_COUNT) 0 0 i hscan
        rw [mapSlab_hit _ pushlen bufpos fl i hscan2]
        refine ⟨?_, rfl⟩
        dsimp only
        rw [(getD_mark_psp m.slabs i m.gen).1, (getD_mark_psp m.slabs i m.gen).2]
      | inr best =>
        have e1 := mapSlab_miss2 m pushlen bufpos fl best hscan
        by_cases haddr : (slabSetupAlloc (m.slabs.getD best default) m.allocs).1 = 0
        · exfalso
          apply h1
          rw [e0, e1, if_pos haddr]
        · have hbest : best < SLAB_COUNT := by
            rcases slabScan_inr_mem m.slabs m.gen _ (List.range SLAB_COUNT) 0 best hscan
              with rfl | hmem
            · decide
            · exact List.mem_range.mp hmem
          have hgd : (m.slabs.set best
              { psp_pointer := (slabSetupAlloc (m.slabs.getD best default) m.allocs).1,
                buf_pointer := bufpos / SLAB_SIZE * SLAB_SIZE,
                last_used := m.gen + 1 }).getD best default =
              { psp_pointer := (slabSetupAlloc (m.slabs.getD best default) m.allocs).1,
                buf_pointer := bufpos / SLAB_SIZE * SLAB_SIZE,
                last_used := m.gen + 1 } :=
            getD_set_self _ _ _ _ (by rw [hslen]; exact hbest)
          rw [e0, e1, if_neg haddr]
          dsimp only
          have hsc2 : ((m.slabs.set best
              { psp_pointer := (slabSetupAlloc (m.slabs.getD best default) m.allocs).1,
                buf_pointer := bufpos / SLAB_SIZE * SLAB_SIZE,
                last_used := m.gen + 1 }).getD best default).Matches
              (bufpos / SLAB_SIZE * SLAB_SIZE) = true := by
            rw [hgd]
            simp only [SlabInfo.Matches, beq_self_eq_true, Bool.true_and, bne_iff_ne, ne_eq]
            exact haddr
          rw [bufMap_shortcut _ pushlen bufpos sz fl hss hsc2]
          refine ⟨?_, rfl⟩
          dsimp only
          rw [hgd]
  · -- extra path
    have e0 := bufMap_extra_eq m pushlen bufpos sz fl hss
    cases hescan : extraScan m.extras bufpos sz (List.range EXTRA_COUNT) with
    | some i =>
      have e1 := mapExtra_hit m bufpos sz fl i hescan
      rw [e0, e1]
      dsimp only
      rw [e0, e1]
      exact ⟨rfl, rfl⟩
    | none =>
      have h1' : (mapExtra m bufpos sz fl).1 ≠ 0 := by
        rw [e0] at h1
        exact h1
      have hkey := mapExtra_miss_success m bufpos sz fl helen hoff hescan h1'
      have hscan2 : extraScan (mapExtra m bufpos sz fl).2.1.extras bufpos sz
          (List.range EXTRA_COUNT) = some m.extraOffset := by
        apply extraScan_first
        · rw [hkey.1]
          exact extraMatches_self _ _ _ h1'
        · exact List.mem_range.mpr hoff
        · intro j hj hji
          exact hkey.2.1 j (List.mem_range.mp hj) hji
      rw [e0]
      rw [bufMap_extra_eq _ pushlen bufpos sz fl hss]
      rw [mapExtra_hit _ bufpos sz fl m.extraOffset hscan2]
      dsimp only
      rw [hkey.1]
      exact ⟨rfl, rfl⟩

/-- Witness for C5 at a concrete input: the first `Map` call allocates a
slab window at `0x08A00000`; the identical second call returns the same
address with an empty event trace (no allocation, no copy, no flush). -/
theorem C5_witness :
    (bufMap (bufMap (initMapping [0x08A00000]) 16 0 16 []).2.1 16 0 16 []).1 =
      (bufMap (initMapping [0x08A00000]) 16 0 16 []).1 ∧
    (bufMap (bufMap (initMapping [0x08A00000]) 16 0 16 []).2.1 16 0 16 []).2.2 = [] :=
  C5_map_idempotent (initMapping [0x08A00000]) 16 0 16 [] (by decide) (by decide)
    (by decide) (by decide)

/-- The wrap-or-not core of the `Registers` handler preserves the headroom
invariant, provided the pending words plus payload plus the 8-byte reserve
fit in the list buffer at all. -/
theorem registersAppend_inv (c : ExecCtx) (s : ExecState) (ptr sz : Nat)
    (hlo : s.execListBuf ≤ s.execListPos)
    (hhi : s.execListPos + 8 ≤ s.execListBuf + LIST_BUF_SIZE)
    (hsz : 4 * s.execListQueue.length + sz + 8 ≤ LIST_BUF_SIZE) :
    (registersAppend c s ptr sz).1.execListBuf = s.execListBuf ∧
    s.execListBuf ≤ (registersAppend c s ptr sz).1.execListPos ∧
    (registersAppend c s ptr sz).1.execListPos + 8 ≤ s.execListBuf + LIST_BUF_SIZE := by
  simp only [registersAppend]
  by_cases hwrap : s.execListPos + (4 * s.execListQueue.length + sz + 8) ≥
      s.execListBuf + LIST_BUF_SIZE
  · rw [if_pos hwrap]
    dsimp only
    omega
  · rw [if_neg hwrap]
    dsimp only
    omega

/-- C7 (amended): provided a single command's pending words plus payload
plus the 8-byte reserve fit within the 256 KB list buffer, the `Registers`
handler preserves the headroom invariant — the write position stays inside
the buffer with at least 8 free bytes — and under that invariant the
finish/end pair written at list finalization fits without wrapping (both
words land inside the buffer). -/
theorem C7_amended_headroom (c : ExecCtx) (s : ExecState) (ptr sz : Nat)
    (hInv : listInv s)
    (hsz : 4 * s.execListQueue.length + sz + 8 ≤ LIST_BUF_SIZE) :
    listInv (registersStep c s ptr sz).1 ∧
    (s.execListBuf ≠ 0 →
      ∀ addr val, Ev.writeU32 addr val ∈ (submitListEnd c s).2 →
        s.execListBuf ≤ addr ∧ addr + 4 ≤ s.execListBuf + LIST_BUF_SIZE) := by
  constructor
  · unfold registersStep
    by_cases hbuf : s.execListBuf ≠ 0
    · have hens : registersEnsureList c s = (true, s, []) := by
        unfold registersEnsureList
        rw [if_pos hbuf]
      rw [hens]
      obtain ⟨hlo, hhi⟩ := hInv hbuf
      obtain ⟨h1, h2, h3⟩ := registersAppend_inv c s ptr sz hlo hhi hsz
      show listInv (registersAppend c s ptr sz).1
      intro hbuf2
      rw [h1]
      exact ⟨h2, h3⟩
    · push_neg at hbuf
      have hne : ¬s.execListBuf ≠ 0 := fun h => h hbuf
      cases hallocs : s.listAllocs with
      | nil =>
        have hens : registersEnsureList c s =
            (false, s, [Ev.alloc LIST_BUF_SIZE 0,
              Ev.errorLog "Unable to allocate for display list"]) := by
          unfold registersEnsureList
          rw [if_neg hne, hallocs]
        rw [hens]
        show listInv s
        exact hInv
      | cons a rest =>
        by_cases ha : a = 0
        · subst ha
          have hens : registersEnsureList c s =
              (false, { s with listAllocs := rest },
               [Ev.alloc LIST_BUF_SIZE 0,
                Ev.errorLog "Unable to allocate for display list"]) := by
            unfold registersEnsureList
            rw [if_neg hne, hallocs]
            dsimp only
            rw [if_pos rfl]
          rw [hens]
          show listInv { s with listAllocs := rest }
          intro h
          exact absurd hbuf h
        · have hens : registersEnsureList c s =
              (true,
               { s with
                   listAllocs := rest, execListBuf := a,
                   execListPos := a + 4, execListID := c.env.enqueueRet },
               [Ev.alloc LIST_BUF_SIZE a, Ev.writeU32 a (GE_CMD_NOP <<< 24),
                Ev.enableInterrupts false, Ev.opPosted OpType.EnqueueList a (a + 4),
                Ev.enableInterrupts true]) := by
            unfold registersEnsureList
            rw [if_neg hne, hallocs]
            dsimp only
            rw [if_neg ha]
          rw [hens]
          show listInv (registersAppend c
            { s with
                listAllocs := rest, execListBuf := a,
                execListPos := a + 4, execListID := c.env.enqueueRet } ptr sz).1
          obtain ⟨h1, h2, h3⟩ := registersAppend_inv c
            { s with
                listAllocs := rest, execListBuf := a,
                execListPos := a + 4, execListID := c.env.enqueueRet } ptr sz
            (by dsimp only; omega) (by dsimp only; unfold LIST_BUF_SIZE; omega)
            (by dsimp only; exact hsz)
          intro hbuf2
          rw [h1]
          exact ⟨h2, h3⟩
  · intro hbuf addr val hmem
    obtain ⟨hlo, hhi⟩ := hInv hbuf
    unfold submitListEnd at hmem
    by_cases hstop : s.execListPos = 0 ∨ c.env.cancelled = true
    · rw [if_pos hstop] at hmem
      simp at hmem
    · rw [if_neg hstop] at hmem
      simp only [syncStallEvents] at hmem
      rw [if_neg hbuf] at hmem
      simp at hmem
      rcases hmem with ⟨ha, -⟩ | ⟨ha, -⟩ <;> subst ha <;> omega

/-- C7 counterexample: a `Registers` command with a 262144-byte payload
(entirely inside the pushbuffer) triggers the wrap, after which the write
position sits exactly at the end of the 256 KB list buffer — 0 bytes of
headroom remain, not the claimed 8. -/
theorem C7_counterexample :
    (registersStep ctxBig stList 0 262144).1.execListBuf = 0x08900000 ∧
    (registersStep ctxBig stList 0 262144).1.execListPos = 0x08900000 + LIST_BUF_SIZE ∧
    ¬((registersStep ctxBig stList 0 262144).1.execListPos + 8 ≤
        (registersStep ctxBig stList 0 262144).1.execListBuf + LIST_BUF_SIZE) := by
  refine ⟨?_, ?_, ?_⟩ <;> decide

/-- Witness for C7 at a concrete input: a 4-byte `Registers` payload in a
fresh list keeps the write position inside the buffer with 8 bytes spare. -/
theorem C7_witness :
    (registersStep ctx0 stList 0 4).1.execListBuf ≤
      (registersStep ctx0 stList 0 4).1.execListPos ∧
    (registersStep ctx0 stList 0 4).1.execListPos + 8 ≤
      (registersStep ctx0 stList 0 4).1.execListBuf + LIST_BUF_SIZE :=
  (C7_amended_headroom ctx0 stList 0 4 (fun _ => ⟨by decide, by decide⟩) (by decide)).1
    (by decide)

/-- C8 counterexample: with the tracked base (0) differing from the mapped
window's high address byte (0x08), `TransferSrc` emits no base-address
command word at all — the queue gains only the transfer-source width word
and the address word, neither of which carries the BASE opcode. -/
theorem C8_counterexample :
    (bufMap stMap.mapping ctxP16.pushbuf.length 0 16 (syncStallEvents stMap)).1 =
      0x08A00000 ∧
    stMap.lastBase ≠ 0x08A00000 &&& 0xFF000000 ∧
    (∀ w ∈ (transferSrcStep ctxP16 stMap 0 16).1.execListQueue,
      w >>> 24 ≠ GE_CMD_BASE) := by
  refine ⟨by decide, by decide, by decide⟩

/-- C8 (amended): after a successful `Map`, `Vertices` and `Indices` emit a
base-address command word exactly when the returned window's high address
byte differs from the tracked last base, then the type-specific address
word; `TransferSrc` emits no base word regardless — it carries the high
byte inside the transfer-source width word, then its address word. -/
theorem C8_amended_base_emit (c : ExecCtx) (s : ExecState) (ptr sz : Nat)
    (hpsp : (bufMap s.mapping c.pushbuf.length ptr sz (syncStallEvents s)).1 ≠ 0) :
    ((verticesStep c s ptr sz).1.execListQueue =
      s.execListQueue ++
        (if s.lastBase ≠ (bufMap s.mapping c.pushbuf.length ptr sz
              (syncStallEvents s)).1 &&& 0xFF000000 then
          [(GE_CMD_BASE <<< 24) ||| (((bufMap s.mapping c.pushbuf.length ptr sz
              (syncStallEvents s)).1 >>> 8) &&& 0xFF0000)]
         else []) ++
        [(GE_CMD_VADDR <<< 24) ||| ((bufMap s.mapping c.pushbuf.length ptr sz
            (syncStallEvents s)).1 &&& 0xFFFFFF)]) ∧
    ((indicesStep c s ptr sz).1.execListQueue =
      s.execListQueue ++
        (if s.lastBase ≠ (bufMap s.mapping c.pushbuf.length ptr sz
              (syncStallEvents s)).1 &&& 0xFF000000 then
          [(GE_CMD_BASE <<< 24) ||| (((bufMap s.mapping c.pushbuf.length ptr sz
              (syncStallEvents s)).1 >>> 8) &&& 0xFF0000)]
         else []) ++
        [(GE_CMD_IADDR <<< 24) ||| ((bufMap s.mapping c.pushbuf.length ptr sz
            (syncStallEvents s)).1 &&& 0xFFFFFF)]) ∧
    ((transferSrcStep c s ptr sz).1.execListQueue =
      s.execListQueue ++
        [(c.env.transfersrcw &&& 0xFF00FFFF) ||| (((bufMap s.mapping c.pushbuf.length
            ptr sz (syncStallEvents s)).1 >>> 8) &&& 0xFF0000),
         (GE_CMD_TRANSFERSRC <<< 24) ||| ((bufMap s.mapping c.pushbuf.length ptr sz
            (syncStallEvents s)).1 &&& 0xFFFFFF)]) := by
  refine ⟨?_, ?_, ?_⟩
  · simp only [verticesStep]
    rw [if_neg hpsp]
    by_cases hbase : s.lastBase ≠ (bufMap s.mapping c.pushbuf.length ptr sz
        (syncStallEvents s)).1 &&& 0xFF000000
    · rw [if_pos hbase, if_pos hbase]
    · rw [if_neg hbase, if_neg hbase]
      simp
  · simp only [indicesStep]
    rw [if_neg hpsp]
    by_cases hbase : s.lastBase ≠ (bufMap s.mapping c.pushbuf.length ptr sz
        (syncStallEvents s)).1 &&& 0xFF000000
    · rw [if_pos hbase, if_pos hbase]
    · rw [if_neg hbase, if_neg hbase]
      simp
  · simp only [transferSrcStep]
    rw [if_neg hpsp]

/-- Witness for C8 at a concrete input: the `TransferSrc` queue words after
a successful map of `(0, 16)` from `stMap`. -/
theorem C8_witness :
    (transferSrcStep ctxP16 stMap 0 16).1.execListQueue =
      stMap.execListQueue ++
        [(ctxP16.env.transfersrcw &&& 0xFF00FFFF) |||
           (((bufMap stMap.mapping ctxP16.pushbuf.length 0 16
               (syncStallEvents stMap)).1 >>> 8) &&& 0xFF0000),
         (GE_CMD_TRANSFERSRC <<< 24) |||
           ((bufMap stMap.mapping ctxP16.pushbuf.length 0 16
               (syncStallEvents stMap)).1 &&& 0xFFFFFF)] :=
  (C8_amended_base_emit ctxP16 stMap 0 16 (by decide)).2.2

/-- The stall never posts a list-sync request. -/
theorem anyListSync_syncStall (s : ExecState) :
    (syncStallEvents s).any isListSyncPost = false := by
  unfold syncStallEvents
  split
  · rfl
  · rfl

/-- Slab setup allocation events carry no list-sync request. -/
theorem anyListSync_slabSetupAlloc (sb : SlabInfo) (allocs : List Nat) :
    ((slabSetupAlloc sb allocs).2.2).any isListSyncPost = false := by
  unfold slabSetupAlloc
  split
  · cases allocs <;> rfl
  · rfl

/-- `MapSlab` posts no list-sync request when its flush does not. -/
theorem anyListSync_mapSlab (m : BufMappingState) (pushlen bufpos : Nat) (fl : List Ev)
    (hfl : fl.any isListSyncPost = false) :
    ((mapSlab m pushlen bufpos fl).2.2).any isListSyncPost = false := by
  simp only [mapSlab]
  split
  · rfl
  · split
    · rw [List.any_append, hfl, anyListSync_slabSetupAlloc]
      rfl
    · rw [List.any_append, List.any_append, hfl, anyListSync_slabSetupAlloc]
      rfl

/-- `ExtraInfo::Alloc` posts no list-sync request. -/
theorem anyListSync_extraAllocOne (e : ExtraInfo) (bufpos sz : Nat) (allocs : List Nat) :
    ((extraAllocOne e bufpos sz allocs).2.2.2).any isListSyncPost = false := by
  have hfree : ((if e.psp_pointer ≠ 0 then [Ev.freeMem e.psp_pointer] else []).any
      isListSyncPost) = false := by
    split <;> rfl
  unfold extraAllocOne
  cases allocs with
  | nil =>
    dsimp only
    rw [List.any_append, hfree]
    rfl
  | cons a rest =>
    dsimp only
    split
    · rw [List.any_append, hfree]
      rfl
    · rw [List.any_append, hfree]
      rfl

/-- Freeing the extra pool posts no list-sync request. -/
theorem anyListSync_freeAll (l : List ExtraInfo) :
    ((freeAllExtras l).2).any isListSyncPost = false := by
  induction l with
  | nil => rfl
  | cons e rest ih =>
    have he : ((extraFree e).2).any isListSyncPost = false := by
      unfold extraFree
      split <;> rfl
    show ((extraFree e).2 ++ (freeAllExtras rest).2).any isListSyncPost = false
    rw [List.any_append, he, ih]
    rfl

/-- `MapExtra` posts no list-sync request when its flush does not. -/
theorem anyListSync_mapExtra (m : BufMappingState) (bufpos sz : Nat) (fl : List Ev)
    (hfl : fl.any isListSyncPost = false) :
    ((mapExtra m bufpos sz fl).2.2).any isListSyncPost = false := by
  unfold mapExtra
  split
  · rfl
  · dsimp only
    split
    · rw [List.any_append, hfl, anyListSync_extraAllocOne]
      rfl
    · split
      · rw [List.any_append, List.any_append, List.any_append, hfl,
          anyListSync_extraAllocOne, anyListSync_freeAll, anyListSync_extraAllocOne]
        rfl
      · rw [List.any_append, List.any_append, List.any_append, hfl,
          anyListSync_extraAllocOne, anyListSync_freeAll, anyListSync_extraAllocOne]
        rfl

/-- `Map` posts no list-sync request when its flush does not. -/
theorem anyListSync_bufMap (m : BufMappingState) (pushlen bufpos sz : Nat) (fl : List Ev)
    (hfl : fl.any isListSyncPost = false) :
    ((bufMap m pushlen bufpos sz fl).2.2).any isListSyncPost = false := by
  simp only [bufMap]
  split
  · split
    · rfl
    · exact anyListSync_mapSlab _ _ _ _ hfl
  · exact anyListSync_mapExtra _ _ _ _ hfl

/-- No handler posts the finalization list-sync request: `Init`. -/
theorem anyListSync_initStep (s : ExecState) (ptr : Nat) :
    ((initStep s ptr).2).any isListSyncPost = false := rfl

/-- No list-sync from the list-buffer setup of `Registers`. -/
theorem anyListSync_registersEnsure (c : ExecCtx) (s : ExecState) :
    ((registersEnsureList c s).2.2).any isListSyncPost = false := by
  unfold registersEnsureList
  split
  · rfl
  · rcases hallocs : s.listAllocs with _ | ⟨a, rest⟩
    · rfl
    · dsimp only
      split <;> rfl

/-- No list-sync from the append half of `Registers`. -/
theorem anyListSync_registersAppend (c : ExecCtx) (s : ExecState) (ptr sz : Nat) :
    ((registersAppend c s ptr sz).2).any isListSyncPost = false := by
  unfold registersAppend
  dsimp only
  split
  · rw [List.any_append, List.any_append, anyListSync_syncStall]
    rfl
  · rfl

/-- No list-sync from `Registers`. -/
theorem anyListSync_registersStep (c : ExecCtx) (s : ExecState) (ptr sz : Nat) :
    ((registersStep c s ptr sz).2).any isListSyncPost = false := by
  unfold registersStep
  dsimp only
  split
  · rw [List.any_append, anyListSync_registersEnsure, anyListSync_registersAppend]
    rfl
  · exact anyListSync_registersEnsure c s

/-- No list-sync from `Vertices`. -/
theorem anyListSync_verticesStep (c : ExecCtx) (s : ExecState) (ptr sz : Nat) :
    ((verticesStep c s ptr sz).2).any isListSyncPost = false := by
  unfold verticesStep
  dsimp only
  split
  · rw [List.any_append, anyListSync_bufMap _ _ _ _ _ (anyListSync_syncStall s)]
    rfl
  · exact anyListSync_bufMap _ _ _ _ _ (anyListSync_syncStall s)

/-- No list-sync from `Indices`. -/
theorem anyListSync_indicesStep (c : ExecCtx) (s : ExecState) (ptr sz : Nat) :
    ((indicesStep c s ptr sz).2).any isListSyncPost = false := by
  unfold indicesStep
  dsimp only
  split
  · rw [List.any_append, anyListSync_bufMap _ _ _ _ _ (anyListSync_syncStall s)]
    rfl
  · exact anyListSync_bufMap _ _ _ _ _ (anyListSync_syncStall s)

/-- No list-sync from `ClutAddr`. -/
theorem anyListSync_clutAddrStep (c : ExecCtx) (s : ExecState) (ptr : Nat) :
    ((clutAddrStep c s ptr).2).any isListSyncPost = false := rfl

/-- No list-sync from `Clut`. -/
theorem anyListSync_clutStep (c : ExecCtx) (s : ExecState) (ptr sz : Nat) :
    ((clutStep c s ptr sz).2).any isListSyncPost = false := by
  unfold clutStep
  split
  · dsimp only
    split
    · rfl
    · rfl
  · dsimp only
    split
    · rw [List.any_append, anyListSync_bufMap _ _ _ _ _ (anyListSync_syncStall s)]
      rfl
    · exact anyListSync_bufMap _ _ _ _ _ (anyListSync_syncStall s)

/-- No list-sync from `TransferSrc`. -/
theorem anyListSync_transferSrcStep (c : ExecCtx) (s : ExecState) (ptr sz : Nat) :
    ((transferSrcStep c s ptr sz).2).any isListSyncPost = false := by
  unfold transferSrcStep
  dsimp only
  split
  · rw [List.any_append, anyListSync_bufMap _ _ _ _ _ (anyListSync_syncStall s)]
    rfl
  · rw [List.any_append, anyListSync_bufMap _ _ _ _ _ (anyListSync_syncStall s),
      anyListSync_syncStall]
    rfl

/-- No list-sync from `Memset`. -/
theorem anyListSync_memsetStep (c : ExecCtx) (s : ExecState) (ptr : Nat) :
    ((memsetStep c s ptr).2).any isListSyncPost = false := by
  unfold memsetStep
  dsimp only
  split
  · rw [List.any_append, anyListSync_syncStall]
    rfl
  · rfl

/-- No list-sync from `MemcpyDest`. -/
theorem anyListSync_memcpyDestStep (c : ExecCtx) (s : ExecState) (ptr : Nat) :
    ((memcpyDestStep c s ptr).2).any isListSyncPost = false := rfl

/-- No list-sync from `Memcpy`. -/
theorem anyListSync_memcpyStep (c : ExecCtx) (s : ExecState) (ptr sz : Nat) :
    ((memcpyStep c s ptr sz).2).any isListSyncPost = false := by
  unfold memcpyStep
  split
  · rw [List.any_append, anyListSync_syncStall]
    rfl
  · rfl

/-- No list-sync from `Texture`. -/
theorem anyListSync_textureStep (c : ExecCtx) (s : ExecState) (level ptr sz : Nat) :
    ((textureStep c s level ptr sz).2).any isListSyncPost = false := by
  unfold textureStep
  dsimp only
  split
  · rw [List.any_append, anyListSync_bufMap _ _ _ _ _ (anyListSync_syncStall s)]
    rfl
  · split
    · exact anyListSync_bufMap _ _ _ _ _ (anyListSync_syncStall s)
    · exact anyListSync_bufMap _ _ _ _ _ (anyListSync_syncStall s)

/-- No list-sync from `Framebuf`. -/
theorem anyListSync_framebufStep (c : ExecCtx) (s : ExecState) (level ptr sz : Nat) :
    ((framebufStep c s level ptr sz).2).any isListSyncPost = false := by
  unfold framebufStep
  dsimp only
  split
  · rfl
  · rfl

/-- No list-sync from `Display`. -/
theorem anyListSync_displayStep (c : ExecCtx) (s : ExecState) (ptr : Nat) (b : Bool) :
    ((displayStep c s ptr b).2).any isListSyncPost = false := by
  unfold displayStep
  dsimp only
  rw [List.any_append, List.any_append, anyListSync_syncStall]
  split
  · rfl
  · rfl

/-- No list-sync from `EdramTrans`. -/
theorem anyListSync_edramTransStep (c : ExecCtx) (s : ExecState) (ptr : Nat) :
    ((edramTransStep c s ptr).2).any isListSyncPost = false := by
  unfold edramTransStep
  dsimp only
  rw [List.any_append, anyListSync_syncStall]
  split
  · rfl
  · rfl

/-- The dispatch of a supported command never posts a list-sync request:
only `SubmitListEnd` does. -/
theorem anyListSync_execCommand (c : ExecCtx) (s : ExecState) (cmd : Command) (b : Bool)
    (res : ExecState × List Ev) (h : execCommand c s cmd b = some res) :
    res.2.any isListSyncPost = false := by
  obtain ⟨ty, ptr, sz⟩ := cmd
  cases ty <;>
    first
      | (simp only [execCommand] at h; exact Option.noConfusion h)
      | (simp only [execCommand] at h; injection h with h; rw [← h];
         first
           | exact anyListSync_initStep _ _
           | exact anyListSync_registersStep _ _ _ _
           | exact anyListSync_verticesStep _ _ _ _
           | exact anyListSync_indicesStep _ _ _ _
           | exact anyListSync_clutAddrStep _ _ _
           | exact anyListSync_clutStep _ _ _ _
           | exact anyListSync_transferSrcStep _ _ _ _
           | exact anyListSync_memsetStep _ _ _
           | exact anyListSync_memcpyDestStep _ _ _
           | exact anyListSync_memcpyStep _ _ _ _
           | exact anyListSync_textureStep _ _ _ _ _
           | exact anyListSync_framebufStep _ _ _ _ _
           | exact anyListSync_displayStep _ _ _ _
           | exact anyListSync_edramTransStep _ _ _)

/-- A run-loop ending in `Error` never reached `SubmitListEnd`: its trace
holds no list-sync request. -/
theorem runLoop_error_not_finalized (c : ExecCtx) :
    ∀ (cmds : List Command) (s : ExecState),
      (runLoop c s cmds).1 = ReplayResult.Error →
      finalizedTrace (runLoop c s cmds).2.2 = false := by
  intro cmds
  induction cmds with
  | nil =>
    intro s h
    simp [runLoop] at h
  | cons cmd rest ih =>
    intro s h
    simp only [runLoop] at h ⊢
    by_cases hc : c.env.cancelled = true
    · rw [if_pos hc] at h
      simp at h
    · rw [if_neg hc] at h ⊢
      cases hex : execCommand c s cmd rest.isEmpty with
      | none =>
        rfl
      | some res =>
        obtain ⟨s1, evs1⟩ := res
        rw [hex] at h
        dsimp only at h ⊢
        unfold finalizedTrace
        rw [List.any_append, anyListSync_execCommand c s cmd rest.isEmpty (s1, evs1) hex]
        have := ih s1 h
        unfold finalizedTrace at this
        rw [this]
        rfl

/-- A run ending in `Error` leaves the trace without any finalization. -/
theorem run_error_not_finalized (c : ExecCtx) (s : ExecState) (cmds : List Command)
    (h : (run c s cmds).1 = ReplayResult.Error) :
    finalizedTrace (run c s cmds).2.2 = false := by
  unfold run at h ⊢
  dsimp only at h ⊢
  unfold finalizedTrace
  rw [List.any_append]
  have hpre : (if c.env.gpuPresent = true then [Ev.setAddrTranslation 0x400]
      else ([] : List Ev)).any isListSyncPost = false := by
    split <;> rfl
  rw [hpre]
  have := runLoop_error_not_finalized c cmds s h
  unfold finalizedTrace at this
  rw [this]
  rfl

/-- A command the switch has no case for makes the dispatch return `none`
regardless of position. -/
theorem execCommand_unsupported (c : ExecCtx) (s : ExecState) (u : Command) (b : Bool)
    (hu : u.supported = false) : execCommand c s u b = none := by
  obtain ⟨ty, ptr, sz⟩ := u
  cases ty <;>
    first
      | rfl
      | simp [Command.supported] at hu

/-- A supported command always dispatches to some handler. -/
theorem execCommand_supported (c : ExecCtx) (s : ExecState) (cmd : Command) (b : Bool)
    (h : cmd.supported = true) : ∃ r, execCommand c s cmd b = some r := by
  obtain ⟨ty, ptr, sz⟩ := cmd
  cases ty <;>
    first
      | exact ⟨_, rfl⟩
      | simp [Command.supported] at h

/-- The run loop stops at the first unsupported command with `Error`,
independently of the commands after it. -/
theorem runLoop_stops_at_unsupported (c : ExecCtx) (hnc : ¬c.env.cancelled = true)
    (u : Command) (hu : u.supported = false) :
    ∀ (pre : List Command) (s : ExecState) (rest : List Command),
      (∀ cmd ∈ pre, cmd.supported = true) →
      (runLoop c s (pre ++ u :: rest)).1 = ReplayResult.Error ∧
      runLoop c s (pre ++ u :: rest) = runLoop c s (pre ++ [u]) := by
  intro pre
  induction pre with
  | nil =>
    intro s rest hpre
    simp only [List.nil_append, runLoop]
    rw [if_neg hnc, if_neg hnc]
    rw [execCommand_unsupported c s u rest.isEmpty hu,
      execCommand_unsupported c s u (([] : List Command).isEmpty) hu]
    exact ⟨rfl, rfl⟩
  | cons p pre' ih =>
    intro s rest hpre
    have hp := hpre p (List.mem_cons_self _ _)
    have hL1 : (pre' ++ u :: rest).isEmpty = false := by
      cases pre' <;> rfl
    have hL2 : (pre' ++ [u]).isEmpty = false := by
      cases pre' <;> rfl
    simp only [List.cons_append, runLoop, List.append_eq]
    rw [if_neg hnc, if_neg hnc, hL1, hL2]
    obtain ⟨r, hex⟩ := execCommand_supported c s p false hp
    obtain ⟨s1, evs1⟩ := r
    rw [hex]
    dsimp only
    obtain ⟨ih1, ih2⟩ := ih s1 rest fun cmd hc => hpre cmd (List.mem_cons_of_mem _ hc)
    refine ⟨ih1, ?_⟩
    rw [ih2]

/-- C1 (amended): the replay run loop stops at the first unsupported
command and reports `Error`, ignoring the remaining commands, but it does
NOT finalize the in-progress regenerated list on this path: no finish/end
words are appended and no stall or list-sync is requested before the run
returns (the code returns from inside the loop, skipping `SubmitListEnd`). -/
theorem C1_amended_error_stops_unfinalized (c : ExecCtx) (s : ExecState)
    (pre rest : List Command) (u : Command)
    (hpre : ∀ cmd ∈ pre, cmd.supported = true)
    (hu : u.supported = false)
    (hnc : c.env.cancelled = false) :
    (run c s (pre ++ u :: rest)).1 = ReplayResult.Error ∧
    finalizedTrace (run c s (pre ++ u :: rest)).2.2 = false ∧
    run c s (pre ++ u :: rest) = run c s (pre ++ [u]) := by
  have hnc' : ¬c.env.cancelled = true := fun h => Bool.false_ne_true (hnc ▸ h)
  obtain ⟨h1, h2⟩ := runLoop_stops_at_unsupported c hnc' u hu pre s rest hpre
  refine ⟨?_, ?_, ?_⟩
  · show (runLoop c s (pre ++ u :: rest)).1 = ReplayResult.Error
    exact h1
  · refine run_error_not_finalized c s _ ?_
    show (runLoop c s (pre ++ u :: rest)).1 = ReplayResult.Error
    exact h1
  · unfold run
    dsimp only
    rw [h2]

/-- C1 counterexample: with an active in-progress list, one unsupported
command makes the run return `Error` with NO finalization — no list-sync is
posted, and the list write position is untouched — contradicting the claim
that the in-progress list is still finalized. -/
theorem C1_counterexample :
    (run ctx0 stList [{ type := CommandType.UNSUPPORTED 42 }]).1 = ReplayResult.Error ∧
    finalizedTrace (run ctx0 stList [{ type := CommandType.UNSUPPORTED 42 }]).2.2 = false ∧
    (run ctx0 stList [{ type := CommandType.UNSUPPORTED 42 }]).2.1.execListPos =
      stList.execListPos := by
  refine ⟨by decide, by decide, by decide⟩

/-- Witness for C1 at a concrete input: a supported command followed by an
unsupported one and a trailing command; the run errors out at the
unsupported command, unfinalized, ignoring the rest. -/
theorem C1_witness :
    (run ctx0 stList [⟨CommandType.CLUTADDR, 0, 0⟩, ⟨CommandType.UNSUPPORTED 7, 0, 0⟩,
        ⟨CommandType.DISPLAY, 0, 0⟩]).1 = ReplayResult.Error ∧
    finalizedTrace (run ctx0 stList [⟨CommandType.CLUTADDR, 0, 0⟩,
        ⟨CommandType.UNSUPPORTED 7, 0, 0⟩, ⟨CommandType.DISPLAY, 0, 0⟩]).2.2 = false ∧
    run ctx0 stList [⟨CommandType.CLUTADDR, 0, 0⟩, ⟨CommandType.UNSUPPORTED 7, 0, 0⟩,
        ⟨CommandType.DISPLAY, 0, 0⟩] =
      run ctx0 stList [⟨CommandType.CLUTADDR, 0, 0⟩, ⟨CommandType.UNSUPPORTED 7, 0, 0⟩] :=
  C1_amended_error_stops_unfinalized ctx0 stList [⟨CommandType.CLUTADDR, 0, 0⟩]
    [⟨CommandType.DISPLAY, 0, 0⟩] ⟨CommandType.UNSUPPORTED 7, 0, 0⟩
    (by decide) (by decide) (by decide)

/-- Witness for C4 at a concrete input: from the initial state with a
failing allocator, the miss selects slot 0, advances the cursor to 1, and
the doubly failed allocation returns 0. -/
theorem C4_witness :
    ((mapExtra (initMapping [0, 0]) 5 3000000 []).2.1.extraOffset = (0 + 1) % EXTRA_COUNT) ∧
    (mapExtra (initMapping [0, 0]) 5 3000000 []).1 = 0 := by
  have h := C4_extra_round_robin (initMapping [0, 0]) 5 3000000 []
    (by decide) (by decide) (by decide)
  exact ⟨h.1, h.2.2.2.2.2 [] rfl⟩

/-- Witness for C3 at a concrete input: from the initial state (no calls
yet) every slab misses, the scan returns slab 0, its age is maximal (all
ages are equally "unallocated"), and slab 3 is untouched by the mapping. -/
theorem C3_witness :
    ((runMaps 64 (initMapping [0x08A00000]) []).slabs.getD 3 default).Age
        (runMaps 64 (initMapping [0x08A00000]) []).gen ≤
      ((runMaps 64 (initMapping [0x08A00000]) []).slabs.getD 0 default).Age
        (runMaps 64 (initMapping [0x08A00000]) []).gen ∧
    (mapSlab (runMaps 64 (initMapping [0x08A00000]) []) 64 0 []).2.1.slabs.getD 3 default =
      (runMaps 64 (initMapping [0x08A00000]) []).slabs.getD 3 default :=
  ⟨(C3_slab_eviction_lru [0x08A00000] 64 [] _ rfl 0 0 [] (by decide)).1 3 (by decide),
   (C3_slab_eviction_lru [0x08A00000] 64 [] _ rfl 0 0 [] (by decide)).2 3 (by decide)
     (by decide)⟩

/-- Witness for C2 at concrete inputs: the same `Framebuf` record (flags
bit 1 set) copies no pixel data under version 6, and does copy under
version 5. -/
theorem C2_witness :
    Ev.pushCopy 0x08000000 16 4 ∉ (framebufStep ctxV6 st0 0 0 20).2 ∧
    (∃ dst srcOff len, Ev.pushCopy dst srcOff len ∈ (framebufStep ctxV5 st0 0 0 20).2) :=
  ⟨(C2_framebuf_unchanged_flag ctxV6 st0 0 0 20).1 (by decide) (by decide) 0x08000000 16 4,
   ((C2_framebuf_unchanged_flag ctxV5 st0 0 0 20).2 (by decide)).mpr (by decide)⟩

/-- Witness for C6 at a concrete input: a file with wrong magic bytes. -/
theorem C6_witness :
    loadReplay 0x50444547 1 6
      { magic := 0, version := 5, commandCount := 1, pushbufSize := 4,
        cmdDecompLen := 12, pushDecompLen := 4 } = 0 ∧
    runMountedLoadPhase 0x50444547 1 6 "" 0 "dump.ppdmp"
      { magic := 0, version := 5, commandCount := 1, pushbufSize := 4,
        cmdDecompLen := 12, pushDecompLen := 4 } = Sum.inl ReplayResult.Error ∧
    loadPhaseStartsThread
      (runMountedLoadPhase 0x50444547 1 6 "" 0 "dump.ppdmp"
        { magic := 0, version := 5, commandCount := 1, pushbufSize := 4,
          cmdDecompLen := 12, pushDecompLen := 4 }) = false :=
  C6_load_rejects 0x50444547 1 6 0 "" "dump.ppdmp" _ (by decide) (Or.inl (by decide))

end Playback
